import Mathlib

/-!
Verification development for the source-of-wealth orchestration core.

The definitions below are a shallow embedding of the Python modules
`source_of_wealth_agent/agents/risk_assessment_agent.py`,
`source_of_wealth_agent/agents/summarization_agent.py`,
`source_of_wealth_agent/agents/human_advisory_agent.py`,
`source_of_wealth_agent/workflow/orchestration.py` and
`source_of_wealth_agent/core/state.py`.

State dictionaries become a structure with `Option` fields for key
presence; Python dicts used as ordered string-keyed maps become
association lists (`SMap`) with insertion-order iteration and
replace-in-place assignment, matching Python dict semantics.
Calls to `datetime.now()` are modelled by an explicit `now : String`
argument.  LangGraph merges a node's returned update dict into the
running state; node functions below return the merged state directly.
-/

set_option maxRecDepth 4000

namespace SOW

/-- Ordered string-keyed map, as a Python dict: insertion order preserved,
assignment replaces in place. -/
abbrev SMap (β : Type) := List (String × β)

def SMap.find? {β : Type} (k : String) : SMap β → Option β
  | [] => none
  | (k1, v) :: rest => if k1 = k then some v else SMap.find? k rest

/-- Python `d[k] = v`: replace in place if present, else append. -/
def SMap.set {β : Type} (k : String) (v : β) : SMap β → SMap β
  | [] => [(k, v)]
  | (k1, v1) :: rest => if k1 = k then (k, v) :: rest else (k1, v1) :: SMap.set k v rest

/-- `HumanApprovalDetail` from `core/state.py`. -/
structure HumanApprovalDetail where
  approved : Bool
  review_date : String
  issues_at_review : List String
  reviewer_comments : Option String
deriving Repr, DecidableEq

/-- `human_approvals` values are `Union[bool, HumanApprovalDetail]`. -/
inductive ApprovalValue
  | plain (b : Bool)
  | detail (d : HumanApprovalDetail)
deriving Repr, DecidableEq

/-- The `approved` flag of an approvals entry; `isinstance(x, dict)` dispatch
from `perform_risk_assessment` lines 161-164. -/
def ApprovalValue.approvedFlag : ApprovalValue → Bool
  | .plain b => b
  | .detail d => d.approved

structure IDVerificationResult where
  verified : Bool
  issues_found : List String := []
  id_type : Option String := none
  id_number : Option String := none
  id_expiry : Option String := none
  name : Option String := none
  date_of_birth : Option String := none
  nationality : Option String := none
  warnings : List String := []
deriving Repr, DecidableEq

structure PayslipVerificationResult where
  verified : Bool
  issues_found : List String := []
  employer : Option String := none
  position : Option String := none
  monthly_income : Option Int := none
  employment_start : Option String := none
  payment_date : Option String := none
  warnings : List String := []
deriving Repr, DecidableEq

/-- The `analysis` sub-dict of a web mention. -/
structure MentionAnalysis where
  summary : Option String := none
  sentiment : Option String := none
  company : Option String := none
  position : Option String := none
deriving Repr, DecidableEq

structure Mention where
  source : Option String := none
  url : Option String := none
  details : Option String := none
  analysis : Option MentionAnalysis := none
deriving Repr, DecidableEq

structure WebReferencesResult where
  verified : Bool
  mentions : List Mention := []
  risk_flags : Option (List String) := none
  search_date : Option String := none
deriving Repr, DecidableEq

structure FinancialReportsResult where
  verified : Bool
  issues_found : List String := []
  reports_analyzed : List String := []
  annual_income_range : Option String := none
  investment_assets : Option String := none
  credit_score : Option String := none
  analysis_date : Option String := none
deriving Repr, DecidableEq

structure CorroborationResult where
  consistent : Option Bool := none
  income_consistent : Option Bool := none
deriving Repr, DecidableEq

/-- `VerificationRequirement` from `core/state.py`. -/
structure VerificationRequirement where
  verification_type : String
  required : Bool
  reason : String
  status : String
  priority : Nat
deriving Repr, DecidableEq

/-- `VerificationPlan` from `core/state.py`. -/
structure VerificationPlan where
  plan_created : String
  id_verification_required : Bool
  payslip_verification_required : Bool
  web_references_required : Bool
  financial_reports_required : Bool
  other_verifications : List String
  verification_requirements : SMap VerificationRequirement
  plan_justification : String
deriving Repr, DecidableEq

/-- An audit-log entry (`log_action`); the timestamp and result payload are
not consulted by any routing or scoring code and are omitted. -/
structure AuditEntry where
  agent : String
  action : String
deriving Repr, DecidableEq

/-- `ReviewItem` from `core/state.py` (the `verification_data` payload is
opaque to the orchestration core and omitted). -/
structure ReviewItem where
  verification_type : String
  client_id : String
  issues : List String
  requested_at : String
  status : String
deriving Repr, DecidableEq

structure ReviewResponse where
  verification_type : String
  approved : Bool
deriving Repr, DecidableEq

structure RiskAssessmentResult where
  risk_score : Nat
  risk_level : String
  risk_factors : List String
  assessment_date : String
deriving Repr, DecidableEq

/-- A `verification_status` value in the summary: a bool, or the literal
string "Not Required" (truthy in Python). -/
inductive StatusFlag
  | ofBool (b : Bool)
  | notRequired
deriving Repr, DecidableEq

def StatusFlag.truthy : StatusFlag → Bool
  | .ofBool b => b
  | .notRequired => true

structure ClientInfoSummary where
  client_id : String
  client_name : String
  verification_date : String
deriving Repr, DecidableEq

structure PlanFlagsSummary where
  id_verification_required : Bool
  payslip_verification_required : Bool
  web_references_required : Bool
  financial_reports_required : Bool
deriving Repr, DecidableEq

structure VerificationStatusSummary where
  id_verified : StatusFlag
  payslip_verified : StatusFlag
  web_references_verified : StatusFlag
  financial_reports_verified : StatusFlag
deriving Repr, DecidableEq

inductive IdentityDetailsSummary
  | unavailable
  | available (id_type id_number id_expiry name_on_id date_of_birth nationality : String)
      (human_verified : ApprovalValue)
deriving Repr, DecidableEq

inductive EmploymentDetailsSummary
  | notRequired
  | unavailable
  | available (employer position : String) (monthly_income annual_income : Int)
      (employment_start last_payment_date : String)
deriving Repr, DecidableEq

structure ProcessedMention where
  source : String
  url : String
  summary : String
  sentiment : String
deriving Repr, DecidableEq

inductive WebPresenceSummary
  | unavailable
  | available (mentions_count : Nat) (top_mentions : List ProcessedMention)
      (risk_flags : List String) (search_date : String)
deriving Repr, DecidableEq

inductive FinancialReportsSummary
  | notRequired
  | unavailable
  | available (reports_analyzed : List String)
      (annual_income_range investment_assets credit_score analysis_date : String)
deriving Repr, DecidableEq

structure VerificationSummary where
  client_info : ClientInfoSummary
  verification_plan : PlanFlagsSummary
  verification_status : VerificationStatusSummary
  identity_details : IdentityDetailsSummary
  employment_details : EmploymentDetailsSummary
  web_presence : WebPresenceSummary
  financial_reports : FinancialReportsSummary
  risk_indicators : List String
deriving Repr, DecidableEq

/-- `AgentState` from `core/state.py`; absent dict keys are `none`. -/
structure AgentState where
  client_id : String := "Unknown"
  client_name : String := "Unknown"
  id_verification : Option IDVerificationResult := none
  payslip_verification : Option PayslipVerificationResult := none
  web_references : Option WebReferencesResult := none
  financial_reports : Option FinancialReportsResult := none
  employment_corroboration : Option CorroborationResult := none
  funds_corroboration : Option CorroborationResult := none
  verification_plan : Option VerificationPlan := none
  current_verification_step : Option String := none
  completed_verifications : List String := []
  risk_assessment : Option RiskAssessmentResult := none
  verification_summary : Option VerificationSummary := none
  final_report : Option String := none
  human_approvals : SMap ApprovalValue := []
  next_agent : Option String := none
  next_verification : Option String := none
  risk_assessment_action : Option String := none
  id_verification_critical_issues : Bool := false
  audit_log : List AuditEntry := []
  pending_reviews : List ReviewItem := []
  review_responses : List ReviewResponse := []
deriving Repr, DecidableEq

/-- `create_initial_state` from `core/state.py`. -/
def create_initial_state (client_id client_name : String) : AgentState :=
  { client_id := client_id, client_name := client_name }

/-- `state.get("human_approvals", {}).get(k, {}).get("approved", False)`. -/
def approvalFlagOf (s : AgentState) (k : String) : Bool :=
  match SMap.find? k s.human_approvals with
  | some v => v.approvedFlag
  | none => false

/-- Human override on record for ID verification. -/
def idApproved (s : AgentState) : Bool := approvalFlagOf s "id_verification"

/-- `state.get("id_verification", {}).get("verified", None)` as `Option Bool`. -/
def idVerifiedOpt (s : AgentState) : Option Bool := s.id_verification.map (·.verified)

/-- Identity resolved: `verified is True` or human override approved. -/
def idResolvedB (s : AgentState) : Bool := (idVerifiedOpt s).getD false || idApproved s

/-- `verification_plan.get(flag, False)` with `verification_plan` possibly absent. -/
def planFlag (p : Option VerificationPlan) (f : VerificationPlan → Bool) : Bool :=
  match p with
  | some plan => f plan
  | none => false

/-! ## Risk assessor (`risk_assessment_agent.py` lines 75-192) -/

/-- Risk-level bands, lines 170-180 of `perform_risk_assessment`. -/
def riskLevelOf (score : Nat) : String :=
  if score = 0 then "Low"
  else if score < 30 then "Medium-Low"
  else if score < 50 then "Medium"
  else if score < 70 then "Medium-High"
  else "High"

/-- Loop over `summary["risk_indicators"]`, lines 123-127: 10 points per
indicator not already among the accumulated factors. -/
def indicatorFold : List String → List String × Nat → List String × Nat
  | [], acc => acc
  | ind :: rest, (factors, score) =>
    if ind ∈ factors then indicatorFold rest (factors, score)
    else indicatorFold rest (factors ++ [ind], score + 10)

/-- Loop over `state["web_references"]["risk_flags"]` in the no-summary
fallback, lines 147-150. -/
def webFlagsFold : List String → List String × Nat → List String × Nat
  | [], acc => acc
  | flag :: rest, (factors, score) =>
    webFlagsFold rest (factors ++ [s!"Web reference risk: {flag}"], score + 10)

/-- Loop over `state.get("human_approvals", {})`, lines 159-168. -/
def approvalsFold : List (String × ApprovalValue) → List String × Nat → List String × Nat
  | [], acc => acc
  | (check_name, v) :: rest, (factors, score) =>
    if v.approvedFlag then approvalsFold rest (factors, score)
    else approvalsFold rest (factors ++ [s!"Human reviewer rejected {check_name} check"], score + 15)

/-- One additive scoring rule: append the factor and add the points when the
penalty condition holds. -/
def scoreStep (cond : Bool) (factor : String) (points : Nat)
    (acc : List String × Nat) : List String × Nat :=
  if cond then (acc.1 ++ [factor], acc.2 + points) else acc

/-- Fallback penalty test of lines 133: `"id_verification" not in state or
not state["id_verification"].get("verified", False)`. -/
def idFallbackPenalty (s : AgentState) : Bool :=
  match s.id_verification with
  | some r => !r.verified
  | none => true

/-- Fallback penalty test of lines 138-139. -/
def payslipFallbackPenalty (s : AgentState) : Bool :=
  planFlag s.verification_plan (fun p => p.payslip_verification_required) &&
    (match s.payslip_verification with
     | some r => !r.verified
     | none => true)

/-- Fallback penalty test of lines 153-154. -/
def financialFallbackPenalty (s : AgentState) : Bool :=
  planFlag s.verification_plan (fun p => p.financial_reports_required) &&
    (match s.financial_reports with
     | some r => !r.verified
     | none => true)

/-- `perform_risk_assessment`, lines 75-192.  `now` stands for
`datetime.now().isoformat()`. -/
def perform_risk_assessment (now : String) (s : AgentState) : AgentState :=
  let base : List String × Nat :=
    match s.verification_summary with
    | some summary =>
      let vs := summary.verification_status
      let plan := s.verification_plan
      let acc1 := scoreStep (!vs.id_verified.truthy)
        "ID verification failed or missing" 30 ([], 0)
      let acc2 := scoreStep
        (planFlag plan (·.payslip_verification_required) && !vs.payslip_verified.truthy)
        "Required payslip verification failed or missing" 25 acc1
      let acc3 := scoreStep (!vs.web_references_verified.truthy)
        "Web references check failed or missing" 15 acc2
      let acc4 := scoreStep
        (planFlag plan (·.financial_reports_required) && !vs.financial_reports_verified.truthy)
        "Required financial reports verification failed or missing" 20 acc3
      indicatorFold summary.risk_indicators acc4
    | none =>
      let acc1 := scoreStep (idFallbackPenalty s)
        "ID verification failed or missing" 30 ([], 0)
      let acc2 := scoreStep (payslipFallbackPenalty s)
        "Required payslip verification failed or missing" 25 acc1
      let acc3 :=
        match s.web_references with
        | none => (acc2.1 ++ ["Web references check failed or missing"], acc2.2 + 15)
        | some web =>
          if !web.verified then
            (acc2.1 ++ ["Web references check failed or missing"], acc2.2 + 15)
          else
            match web.risk_flags with
            | some flags => webFlagsFold flags acc2
            | none => acc2
      let acc4 := scoreStep (financialFallbackPenalty s)
        "Required financial reports verification failed or missing" 20 acc3
      acc4
  let final := approvalsFold s.human_approvals base
  let result : RiskAssessmentResult :=
    { risk_score := final.2
      risk_level := riskLevelOf final.2
      risk_factors := final.1
      assessment_date := now }
  { s with risk_assessment := some result }

/-! ## Summarizer (`summarization_agent.py`) -/

/-- `_check_verification_status(state, key, "verified")`: dynamic state lookup
of a result slot, projected to `verified` with default `False`. -/
def verifiedFlagAt (s : AgentState) (key : String) : Bool :=
  if key = "id_verification" then (s.id_verification.map (·.verified)).getD false
  else if key = "payslip_verification" then (s.payslip_verification.map (·.verified)).getD false
  else if key = "web_references" then (s.web_references.map (·.verified)).getD false
  else if key = "financial_reports" then (s.financial_reports.map (·.verified)).getD false
  else false

/-- `_extract_identity_details`. -/
def extractIdentityDetails (s : AgentState) : IdentityDetailsSummary :=
  match s.id_verification with
  | none => .unavailable
  | some idd =>
    .available (idd.id_type.getD "Unknown") (idd.id_number.getD "Unknown")
      (idd.id_expiry.getD "Unknown") (idd.name.getD "Unknown")
      (idd.date_of_birth.getD "Unknown") (idd.nationality.getD "Unknown")
      ((SMap.find? "id_verification" s.human_approvals).getD (.plain false))

/-- `_extract_employment_details`. -/
def extractEmploymentDetails (s : AgentState) : EmploymentDetailsSummary :=
  match s.payslip_verification with
  | none => .unavailable
  | some p =>
    .available (p.employer.getD "Unknown") (p.position.getD "Unknown")
      (p.monthly_income.getD 0) (p.monthly_income.getD 0 * 12)
      (p.employment_start.getD "Unknown") (p.payment_date.getD "Unknown")

/-- Mention projection inside `_extract_web_presence`. -/
def processMention (m : Mention) : ProcessedMention :=
  { source := m.source.getD "Unknown"
    url := m.url.getD ""
    summary := match m.analysis with
      | some a => a.summary.getD "No summary available"
      | none => "No summary available"
    sentiment := match m.analysis with
      | some a => a.sentiment.getD "Neutral"
      | none => "Neutral" }

/-- `_extract_web_presence`. -/
def extractWebPresence (now : String) (s : AgentState) : WebPresenceSummary :=
  match s.web_references with
  | none => .unavailable
  | some web =>
    .available web.mentions.length ((web.mentions.map processMention).take 3)
      (web.risk_flags.getD []) (web.search_date.getD now)

/-- `_extract_financial_reports`. -/
def extractFinancialReports (now : String) (s : AgentState) : FinancialReportsSummary :=
  match s.financial_reports with
  | none => .unavailable
  | some f =>
    .available f.reports_analyzed (f.annual_income_range.getD "Unknown")
      (f.investment_assets.getD "Unknown") (f.credit_score.getD "Unknown")
      (f.analysis_date.getD now)

/-- ID-sourced risk indicators in `_extract_risk_indicators`. -/
def idRiskIndicators (s : AgentState) : List String :=
  if !verifiedFlagAt s "id_verification" then ["ID verification failed or incomplete"]
  else match s.id_verification with
    | some idd => if idd.warnings.isEmpty then [] else idd.warnings
    | none => []

/-- Payslip-sourced risk indicators in `_extract_risk_indicators`. -/
def payslipRiskIndicators (s : AgentState) : List String :=
  if !verifiedFlagAt s "payslip_verification" then ["Payslip verification failed or incomplete"]
  else match s.payslip_verification with
    | some p => if p.warnings.isEmpty then [] else p.warnings
    | none => []

/-- Web-sourced risk indicators in `_extract_risk_indicators`
(`"risk_flags" in state["web_references"]` is a key-presence test). -/
def webRiskIndicators (s : AgentState) : List String :=
  match s.web_references with
  | some web => web.risk_flags.getD []
  | none => []

/-- `_extract_risk_indicators`. -/
def extractRiskIndicators (s : AgentState) : List String :=
  idRiskIndicators s ++ payslipRiskIndicators s ++ webRiskIndicators s

/-- The summary dict built by `summarization_agent`, lines 37-62. -/
def buildSummary (now : String) (s : AgentState) : VerificationSummary :=
  let vp := s.verification_plan
  { client_info :=
      { client_id := s.client_id, client_name := s.client_name, verification_date := now }
    verification_plan :=
      { id_verification_required := (vp.map (·.id_verification_required)).getD true
        payslip_verification_required := planFlag vp (·.payslip_verification_required)
        web_references_required := (vp.map (·.web_references_required)).getD true
        financial_reports_required := planFlag vp (·.financial_reports_required) }
    verification_status :=
      { id_verified := .ofBool (verifiedFlagAt s "id_verification")
        payslip_verified :=
          if planFlag vp (·.payslip_verification_required)
          then .ofBool (verifiedFlagAt s "payslip_verification") else .notRequired
        web_references_verified := .ofBool (verifiedFlagAt s "web_references")
        financial_reports_verified :=
          if planFlag vp (·.financial_reports_required)
          then .ofBool (verifiedFlagAt s "financial_reports") else .notRequired }
    identity_details := extractIdentityDetails s
    employment_details :=
      if planFlag vp (·.payslip_verification_required)
      then extractEmploymentDetails s else .notRequired
    web_presence := extractWebPresence now s
    financial_reports :=
      if planFlag vp (·.financial_reports_required)
      then extractFinancialReports now s else .notRequired
    risk_indicators := extractRiskIndicators s }

/-- `summarization_agent`: stores the summary and sets
`risk_assessment_action = "perform_assessment"` on the state it returns. -/
def summarization_agent (now : String) (s : AgentState) : AgentState :=
  { s with
    verification_summary := some (buildSummary now s)
    risk_assessment_action := some "perform_assessment" }

/-! ## Spec-side scoring formula (the wording of claim C2) -/

def claimedIdPenalty (s : AgentState) : Bool := !verifiedFlagAt s "id_verification"

def claimedPayslipPenalty (s : AgentState) : Bool :=
  planFlag s.verification_plan (·.payslip_verification_required) &&
    !verifiedFlagAt s "payslip_verification"

def claimedWebPenalty (s : AgentState) : Bool := !verifiedFlagAt s "web_references"

def claimedFinancialPenalty (s : AgentState) : Bool :=
  planFlag s.verification_plan (·.financial_reports_required) &&
    !verifiedFlagAt s "financial_reports"

/-- The factor strings produced by the four fixed rules, in canonical order. -/
def claimedBaseFactors (s : AgentState) : List String :=
  (if claimedIdPenalty s then ["ID verification failed or missing"] else []) ++
  (if claimedPayslipPenalty s then ["Required payslip verification failed or missing"] else []) ++
  (if claimedWebPenalty s then ["Web references check failed or missing"] else []) ++
  (if claimedFinancialPenalty s then ["Required financial reports verification failed or missing"] else [])

/-- Count of indicators not already present among the accumulated factors
(each newly counted indicator joins the accumulation). -/
def dedupNewCount (seen : List String) : List String → Nat
  | [] => 0
  | i :: rest =>
    if i ∈ seen then dedupNewCount seen rest
    else 1 + dedupNewCount (seen ++ [i]) rest

/-- Number of human-review rejections recorded in `human_approvals`. -/
def rejectionCount (s : AgentState) : Nat :=
  (s.human_approvals.filter (fun kv => !kv.2.approvedFlag)).length

/-- Claim C2's scoring formula, written from the claim's words: a commutative
sum of fixed point values over the state's verification results, the plan's
required flags, the summarizer's risk indicators and the recorded human
rejections. -/
def riskScoreClaimed (s : AgentState) : Nat :=
  (if claimedIdPenalty s then 30 else 0)
  + (if claimedPayslipPenalty s then 25 else 0)
  + (if claimedWebPenalty s then 15 else 0)
  + (if claimedFinancialPenalty s then 20 else 0)
  + 10 * dedupNewCount (claimedBaseFactors s) (extractRiskIndicators s)
  + 15 * rejectionCount s

/-! ## Verification planner (`risk_assessment_agent.py` lines 20-72, 260-531) -/

/-- Python `str.lower()`. -/
def pyLower (s : String) : String := String.mk (s.data.map Char.toLower)

/-- Python `needle in hay` on strings. -/
def strHasSub (hay needle : String) : Bool := decide (needle.data <:+: hay.data)

/-- Audit entry emitted by the risk-assessment agent. -/
def raLog (action : String) : AuditEntry := { agent := "Risk_Assessment_Agent", action := action }

/-- `requirements.get("payslip_verification", {}).get("status")` truthiness
in `determine_next_action` line 57. -/
def reqStatusTruthy : Option VerificationRequirement → Bool
  | some r => !r.status.isEmpty
  | none => false

/-- `determine_next_action`, lines 20-72. -/
def determine_next_action (s : AgentState) : String :=
  match s.id_verification with
  | none => "id_verification"
  | some idr =>
    if !idr.verified && !(idApproved s) then "human_advisory_node"
    else if idr.verified || idApproved s then
      match s.verification_plan with
      | none => "planning"
      | some plan =>
        if s.web_references.isSome &&
            !(reqStatusTruthy (SMap.find? "payslip_verification" plan.verification_requirements)) then
          "analyze_web_references"
        else if s.verification_summary.isSome then "summary"
        else
          match s.next_verification with
          | some nv => nv
          | none => "check_verification_completion"
    else "human_advisory_node"

/-- `create_verification_plan`, lines 260-334.  Branches that end in a bare
`return log_action(...)` merge only the audit entry (the locally built
`new_state` dict is discarded); the planning branch merges the plan, the
current step and the next verification.  The in-branch bare `log_action(...)`
call returns an update that is thrown away, so no audit entry is appended on
the successful path. -/
def create_verification_plan (now : String) (s : AgentState) : AgentState :=
  match s.id_verification with
  | none =>
    { s with audit_log := s.audit_log ++ [raLog "Enforcing ID verification as mandatory first step"] }
  | some idr =>
    if idr.verified || idApproved s then
      let cid := s.client_id
      let cname := s.client_name
      let reqs : SMap VerificationRequirement :=
        [("web_references",
          { verification_type := "web_references"
            required := true
            reason := "Web presence analysis is required to determine employment status and risks"
            status := "pending"
            priority := 2 })]
      let plan : VerificationPlan :=
        { plan_created := now
          id_verification_required := false
          payslip_verification_required := false
          web_references_required := true
          financial_reports_required := false
          other_verifications := []
          verification_requirements := reqs
          plan_justification := s!"Initial verification plan for client {cid} ({cname}). ID verification completed as mandatory first step. Web references check will determine if payslip or financial report verification is needed." }
      { s with
        verification_plan := some plan
        current_verification_step := some "planning"
        next_verification := some "web_references_node" }
    else
      { s with audit_log := s.audit_log ++ [raLog "ID verification failed - requesting human review"] }

/-- A mention counts as employment evidence when its source is LinkedIn or its
analysis carries a non-empty `company` (lines 371-379). -/
def mentionEmployment (m : Mention) : Bool :=
  (pyLower (m.source.getD "") == "linkedin") ||
    (match m.analysis with
     | some a => !(a.company.getD "").isEmpty
     | none => false)

def financialKeywords : List String :=
  ["investor", "investment", "shareholder", "dividend", "stocks", "bonds",
   "portfolio", "financial report"]

/-- Financial keyword scan over a mention's `details` (lines 383-387). -/
def mentionFinancial (m : Mention) : Bool :=
  financialKeywords.any (fun k => strHasSub (pyLower (m.details.getD "")) k)

/-- Lowercased companies collected from the mentions; Python accumulates them
in a `set`, modelled here in first-occurrence order. -/
def dedupGo (seen : List String) : List String → List String
  | [] => []
  | x :: rest => if x ∈ seen then dedupGo seen rest else x :: dedupGo (seen ++ [x]) rest

def companyNamesOf (mentions : List Mention) : List String :=
  dedupGo [] (mentions.filterMap fun m =>
    match m.analysis with
    | some a =>
      match a.company with
      | some c => if c.isEmpty then none else some (pyLower c)
      | none => none
    | none => none)

def joinComma : List String → String
  | [] => ""
  | [x] => x
  | x :: rest => x ++ ", " ++ joinComma rest

/-- `state.get("verification_plan", {})` when the plan key is absent.  The
`.get(key, default)` reads on an empty dict give the defaults below; every
call site in the workflow guarantees the plan is present. -/
def emptyPlanDict : VerificationPlan :=
  { plan_created := ""
    id_verification_required := false
    payslip_verification_required := false
    web_references_required := false
    financial_reports_required := false
    other_verifications := []
    verification_requirements := []
    plan_justification := "" }

/-- The requirements / plan-flag update computed by `analyze_web_references`
(lines 389-415): the pair of the amended requirements dict and the amended
plan record, before the requirements are stored back into the plan. -/
def analyzeRequirementsUpdate (s : AgentState) (web : WebReferencesResult) :
    SMap VerificationRequirement × VerificationPlan :=
  let plan0 := s.verification_plan.getD emptyPlanDict
  let reqs0 := plan0.verification_requirements
  let employment_mentioned := web.mentions.any mentionEmployment
  let financial_info_mentioned := web.mentions.any mentionFinancial
  let company_names := companyNamesOf web.mentions
  let payslip_required := employment_mentioned
  let financial_reports_required := financial_info_mentioned || !employment_mentioned
  let step1 : SMap VerificationRequirement × VerificationPlan :=
    if payslip_required then
      let companiesStr := joinComma company_names
      (SMap.set "payslip_verification"
        { verification_type := "payslip_verification"
          required := true
          reason := s!"Employment information found in web references: {companiesStr}"
          status := "pending"
          priority := 3 } reqs0,
       { plan0 with
         payslip_verification_required := true
         plan_justification := plan0.plan_justification ++
           " Employment information found in web references, payslip verification required." })
    else (reqs0, plan0)
  if financial_reports_required then
    (SMap.set "financial_reports"
      { verification_type := "financial_reports"
        required := !employment_mentioned
        reason :=
          if financial_info_mentioned then "Financial information found in web references"
          else "No employment information found, alternative verification needed"
        status := "pending"
        priority := if !employment_mentioned then 3 else 4 } step1.1,
     { step1.2 with
       financial_reports_required := true
       plan_justification := step1.2.plan_justification ++ " Financial reports verification added." })
  else step1

/-- `analyze_web_references`, lines 337-445. -/
def analyze_web_references (s : AgentState) : AgentState :=
  match s.web_references with
  | none =>
    { s with audit_log := s.audit_log ++ [raLog "Cannot analyze web references - data not found"] }
  | some web =>
    let employment_mentioned := web.mentions.any mentionEmployment
    let financial_info_mentioned := web.mentions.any mentionFinancial
    let payslip_required := employment_mentioned
    let financial_reports_required := financial_info_mentioned || !employment_mentioned
    let step2 := analyzeRequirementsUpdate s web
    let planF := { step2.2 with verification_requirements := step2.1 }
    let sMid := { s with verification_plan := some planF }
    match s.id_verification with
    | none => { sMid with next_verification := some "id_verification" }
    | some idr =>
      if !idr.verified && !(idApproved s) then
        { sMid with next_agent := some "human_advisory_node" }
      else if payslip_required then
        { sMid with next_verification := some "payslip_verification" }
      else if financial_reports_required then
        { sMid with next_verification := some "financial_reports" }
      else
        { sMid with next_verification := some "summarization" }

/-- Status recomputation of lines 488-499: a required entry's status becomes
`completed` or `pending` according to the state's verification data; other
entries are untouched. -/
def recomputeReq (s : AgentState) (kv : String × VerificationRequirement) :
    String × VerificationRequirement :=
  if kv.2.required then
    (kv.1, { kv.2 with
      status := if verifiedFlagAt s kv.2.verification_type then "completed" else "pending" })
  else kv

/-- Selection loop of `check_verification_completion`, lines 510-518: first
strictly-smaller priority wins, starting from the sentinel 999. -/
def mprGo : List (String × VerificationRequirement) → Nat → Option String → Option String
  | [], _, acc => acc
  | (_, r) :: rest, hp, acc =>
    if r.required && r.status == "pending" && decide (r.priority < hp) then
      mprGo rest r.priority (some r.verification_type)
    else mprGo rest hp acc

def minPendingRequired (l : SMap VerificationRequirement) : Option String := mprGo l 999 none

/-- `check_verification_completion`, lines 448-531.  The two ID gates return
a bare audit update (the locally prepared `next_verification` is discarded
with `new_state`); the main path recomputes each required entry's status from
the state and picks the highest-priority pending required entry. -/
def check_verification_completion (s : AgentState) : AgentState :=
  match s.id_verification with
  | none =>
    { s with audit_log := s.audit_log ++ [raLog "ID verification required before checking completion"] }
  | some idr =>
    if !idr.verified && !(idApproved s) then
      { s with audit_log := s.audit_log ++ [raLog "ID verification failed - requesting human review"] }
    else
      let plan0 := s.verification_plan.getD emptyPlanDict
      let reqs := plan0.verification_requirements
      let reqs2 := reqs.map (recomputeReq s)
      let all_required_completed :=
        reqs.all fun kv => !kv.2.required || verifiedFlagAt s kv.2.verification_type
      let completed := (reqs.filter fun kv =>
        kv.2.required && verifiedFlagAt s kv.2.verification_type).map (·.2.verification_type)
      let planF := { plan0 with verification_requirements := reqs2 }
      let nextv :=
        if all_required_completed then "summarization"
        else
          match minPendingRequired reqs2 with
          | some vt => vt
          | none => "summarization"
      { s with
        verification_plan := some planF
        completed_verifications := completed
        next_verification := some nextv }

/-- `risk_assessment_agent`, lines 195-257.  Every `new_state = {...}`
assignment that is followed by `return log_action(...)` is discarded; such
branches merge only the audit entry. -/
def risk_assessment_agent (now : String) (s : AgentState) : AgentState :=
  let action := s.risk_assessment_action.getD "determine_next"
  if action = "determine_next" then
    let nextA := determine_next_action s
    if nextA = "id_verification" then
      { s with audit_log := s.audit_log ++ [raLog "Prioritizing ID verification as first step"] }
    else if nextA = "human_advisory_node" then
      { s with audit_log := s.audit_log ++ [raLog "Routing to human advisory for review"] }
    else if nextA = "planning" then create_verification_plan now s
    else if nextA = "analyze_web_references" then analyze_web_references s
    else if nextA = "check_verification_completion" then check_verification_completion s
    else if nextA = "summarization" then
      { s with audit_log := s.audit_log ++ [raLog "Ready for summarization"] }
    else if nextA = "payslip_verification" || nextA = "web_references" ||
        nextA = "financial_reports" then
      { s with audit_log := s.audit_log ++ [raLog s!"Requesting {nextA}"] }
    else if nextA = "summary" then perform_risk_assessment now s
    else { s with audit_log := s.audit_log ++ [raLog "No specific action performed"] }
  else if action = "perform_assessment" then perform_risk_assessment now s
  else { s with audit_log := s.audit_log ++ [raLog "No specific action performed"] }

/-! ## Routers (`workflow/orchestration.py`) -/

/-- `route_after_risk_assessment`, lines 34-103.  The failed-ID branch
returns `"human_advisory_node"` whether or not an ID review is already
pending (lines 60-74 collapse to the same target). -/
def route_after_risk_assessment (s : AgentState) : String :=
  if !s.review_responses.isEmpty then "human_advisory_node"
  else
    let idv := idVerifiedOpt s
    let appr := idApproved s
    if idv.isNone && !(s.next_verification == some "id_verification") then "id_verification_node"
    else if (idv == some false) && !appr then "human_advisory_node"
    else if (idv == some true) || appr then
      match s.next_agent with
      | some a => a
      | none =>
        match s.next_verification with
        | none => "human_advisory_node"
        | some nv =>
          if nv = "id_verification" then "id_verification_node"
          else if nv = "payslip_verification" then "payslip_verification_node"
          else if nv = "web_references_node" then "web_references_node"
          else if nv = "financial_reports" then "financial_reports_node"
          else if nv = "summarization" then
            if !s.pending_reviews.isEmpty && !(approvalFlagOf s "data_readiness_override") then
              "human_advisory_node"
            else "summarization_node"
          else "human_advisory_node"
    else "human_advisory_node"

/-- `verification_needs_human_review`, lines 106-159.  Returns the routing
target together with the (possibly mutated) state: line 127 writes
`state["id_verification_critical_issues"] = True` into the input state. -/
def verification_needs_human_review (s : AgentState) : String × AgentState :=
  if !s.pending_reviews.isEmpty then ("human_advisory_node", s)
  else if (match s.id_verification with | some r => !r.issues_found.isEmpty | none => false) then
    ("human_advisory_node", { s with id_verification_critical_issues := true })
  else
    let id_verified := (idVerifiedOpt s).getD false
    let approved := idApproved s
    if id_verified || approved then
      let needs_review :=
        (match s.payslip_verification with | some p => !p.issues_found.isEmpty | none => false)
        || (match s.web_references with | some w => !(w.risk_flags.getD []).isEmpty | none => false)
        || (match s.financial_reports with | some f => !f.issues_found.isEmpty | none => false)
      if needs_review then ("human_advisory_node", s) else ("risk_assessment_node", s)
    else ("risk_assessment_node", s)

/-- `route_after_summarization`, lines 162-169: mutates the state
(`state["risk_assessment_action"] = "perform_assessment"`) and routes to the
risk-assessment node. -/
def route_after_summarization (s : AgentState) : String × AgentState :=
  ("risk_assessment_node", { s with risk_assessment_action := some "perform_assessment" })

/-! ## Human advisory agent (`human_advisory_agent.py`) -/

/-- Possible returns of a LangGraph node function: a `Command(goto, update)`,
a `Command(goto)` without a state update, or a plain state update. -/
inductive AdvisoryOutcome
  | command (goto : String) (update : AgentState)
  | commandNoUpdate (goto : String)
  | finalState (s : AgentState)
deriving Repr, DecidableEq

def haLog (action : String) : AuditEntry := { agent := "Human_Advisory_Agent", action := action }

/-- `request_human_review` from `core/state.py`. -/
def request_human_review (verification_type client_id : String) (issues : List String)
    (now : String) : ReviewItem :=
  { verification_type := verification_type
    client_id := client_id
    issues := issues
    requested_at := now
    status := "pending" }

/-- The blocking-review guard of lines 134-138: ID result present and not
verified, with no human approval on record. -/
def needsBlockingReview (s : AgentState) : Bool :=
  (match s.id_verification with | some r => !r.verified | none => false)
    && !(approvalFlagOf s "id_verification")

/-- The non-blocking sections of `human_advisory_agent` (lines 181-297):
queue payslip, corroboration and data-readiness reviews as needed and
return the updated state. -/
def asyncPayslipReview (now : String) (s acc : AgentState) : AgentState :=
  match s.payslip_verification with
  | some p =>
    if !(approvalFlagOf s "payslip_verification_review") && !p.issues_found.isEmpty then
      { acc with
        pending_reviews := acc.pending_reviews ++
          [request_human_review "payslip_verification_review" s.client_id p.issues_found now]
        audit_log := acc.audit_log ++
          [haLog s!"Requested payslip verification review for client {s.client_id}"] }
    else acc
  | none => acc

def asyncEmploymentReview (now : String) (s acc : AgentState) : AgentState :=
  match s.employment_corroboration with
  | some c =>
    if !(approvalFlagOf s "employment_corroboration") then
      let issues := ["Requires manual verification of employment details"] ++
        (if !(c.consistent.getD true) then
          ["Employment details inconsistent with other verification sources"] else [])
      { acc with
        pending_reviews := acc.pending_reviews ++
          [request_human_review "employment_corroboration" s.client_id issues now]
        audit_log := acc.audit_log ++
          [haLog s!"Requested employment corroboration review for client {s.client_id}"] }
    else acc
  | none => acc

def asyncFundsReview (now : String) (s acc : AgentState) : AgentState :=
  match s.funds_corroboration with
  | some c =>
    if !(approvalFlagOf s "funds_corroboration") then
      let issues := ["Requires manual verification of fund sources"] ++
        (if !(c.income_consistent.getD true) then
          ["Fund sources inconsistent with declared income"] else [])
      { acc with
        pending_reviews := acc.pending_reviews ++
          [request_human_review "funds_corroboration" s.client_id issues now]
        audit_log := acc.audit_log ++
          [haLog s!"Requested funds corroboration review for client {s.client_id}"] }
    else acc
  | none => acc

/-- The data-readiness gate of lines 269-290. -/
def asyncReadinessReview (now : String) (s acc : AgentState) : AgentState :=
  let missing :=
    (if !((s.id_verification.map (·.verified)).getD false) then ["id_verification"] else []) ++
    (if !((s.payslip_verification.map (·.verified)).getD false) then ["payslip_verification"] else []) ++
    (if s.web_references.isNone then ["web_references"] else [])
  if !missing.isEmpty && !(approvalFlagOf s "data_readiness_override") then
    { acc with
      pending_reviews := acc.pending_reviews ++
        [request_human_review "data_readiness_override" s.client_id
          (missing.map fun m => s!"Missing required verification: {m}") now]
      audit_log := acc.audit_log ++
        [haLog s!"Requested data readiness override review for client {s.client_id}"] }
  else acc

/-- The non-blocking sections of `human_advisory_agent` (lines 181-297):
queue payslip, corroboration and data-readiness reviews as needed (each
section checks the incoming state and appends to the accumulated one) and
return the updated state. -/
def asyncReviews (now : String) (s : AgentState) : AgentState :=
  asyncReadinessReview now s
    (asyncFundsReview now s (asyncEmploymentReview now s (asyncPayslipReview now s s)))

/-- `human_advisory_agent`, lines 41-297.  The reviewer's `input()` answer in
the blocking branch is the explicit `decision` argument; `now` stands for
`datetime.now().isoformat()`.  On approval the function returns
`Command(goto="risk_assessment_node", update=new_state)`; on rejection it
returns `Command(goto="end")` with no update; otherwise it queues
non-blocking reviews and returns the updated state. -/
def human_advisory_agent (decision : Bool) (now : String) (s : AgentState) : AdvisoryOutcome :=
  if needsBlockingReview s then
    let issues := (s.id_verification.map (·.issues_found)).getD []
    let s1 := { s with audit_log :=
      s.audit_log ++ [haLog "Interrupting workflow for ID verification review"] }
    if decision then
      let approval : HumanApprovalDetail :=
        { approved := true
          review_date := now
          issues_at_review := issues
          reviewer_comments := some "Human review approved ID verification" }
      .command "risk_assessment_node"
        { s1 with human_approvals := SMap.set "id_verification" (.detail approval) s1.human_approvals }
    else .commandNoUpdate "end"
  else .finalState (asyncReviews now s)

/-! ## The workflow graph (`create_workflow`, `orchestration.py` lines 172-283)

A transition system on pairs of graph node and state.  The external
verification collaborators (`id_agent.run` and friends) write one arbitrary
result into their own slot of the state; the payslip agent may additionally
queue a pending review and append audit entries. -/

inductive Node
  | riskAssess | idCheck | payslipCheck | webCheck | finCheck
  | advisory | summarize | reportGen | aborted | finished
deriving Repr, DecidableEq

/-- Mapping of routing-target strings to graph nodes, per the conditional
edge dictionaries of `create_workflow`.  A string outside every dictionary
halts the graph. -/
def decodeTarget (t : String) : Node :=
  if t = "report_generation_node" then .reportGen
  else if t = "id_verification_node" then .idCheck
  else if t = "payslip_verification_node" then .payslipCheck
  else if t = "web_references_node" then .webCheck
  else if t = "financial_reports_node" then .finCheck
  else if t = "summarization_node" then .summarize
  else if t = "human_advisory_node" then .advisory
  else if t = "risk_assessment_node" then .riskAssess
  else .finished

/-- One super-step of the compiled workflow graph. -/
inductive Step : Node × AgentState → Node × AgentState → Prop
  | riskAssess (now : String) (s : AgentState) (n2 : Node) (s2 : AgentState)
      (hs : s2 = risk_assessment_agent now s)
      (hn : n2 = if s2.risk_assessment.isSome then .reportGen
                 else decodeTarget (route_after_risk_assessment s2)) :
      Step (.riskAssess, s) (n2, s2)
  | idCheck (s : AgentState) (r : IDVerificationResult) (s2 : AgentState)
      (hs : s2 = { s with id_verification := some r }) :
      Step (.idCheck, s) (.advisory, s2)
  | payslipCheck (s : AgentState) (r : PayslipVerificationResult)
      (revs : List ReviewItem) (aud : List AuditEntry) (n2 : Node) (s2 : AgentState)
      (hs : s2 = (verification_needs_human_review
        { s with payslip_verification := some r
                 pending_reviews := s.pending_reviews ++ revs
                 audit_log := s.audit_log ++ aud }).2)
      (hn : n2 = decodeTarget (verification_needs_human_review
        { s with payslip_verification := some r
                 pending_reviews := s.pending_reviews ++ revs
                 audit_log := s.audit_log ++ aud }).1) :
      Step (.payslipCheck, s) (n2, s2)
  | webCheck (s : AgentState) (r : WebReferencesResult) (n2 : Node) (s2 : AgentState)
      (hs : s2 = (verification_needs_human_review { s with web_references := some r }).2)
      (hn : n2 = decodeTarget (verification_needs_human_review
        { s with web_references := some r }).1) :
      Step (.webCheck, s) (n2, s2)
  | finCheck (s : AgentState) (r : FinancialReportsResult) (n2 : Node) (s2 : AgentState)
      (hs : s2 = (verification_needs_human_review { s with financial_reports := some r }).2)
      (hn : n2 = decodeTarget (verification_needs_human_review
        { s with financial_reports := some r }).1) :
      Step (.finCheck, s) (n2, s2)
  | advisory (decision : Bool) (now : String) (s : AgentState) (n2 : Node) (s2 : AgentState)
      (h : (n2, s2) = match human_advisory_agent decision now s with
        | .command g u => (decodeTarget g, u)
        | .commandNoUpdate g => (if g = "end" then .aborted else decodeTarget g, s)
        | .finalState u => (.finished, u)) :
      Step (.advisory, s) (n2, s2)
  | summarize (now : String) (s : AgentState) (n2 : Node) (s2 : AgentState)
      (hs : s2 = (route_after_summarization (summarization_agent now s)).2)
      (hn : n2 = decodeTarget (route_after_summarization (summarization_agent now s)).1) :
      Step (.summarize, s) (n2, s2)
  | reportGen (s : AgentState) (rep : String) (s2 : AgentState)
      (hs : s2 = { s with final_report := some rep }) :
      Step (.reportGen, s) (.finished, s2)

/-- States reachable from the workflow entry point
(`workflow.add_edge("__start__", "risk_assessment_node")` on a fresh
`create_initial_state`). -/
def Reachable (p : Node × AgentState) : Prop :=
  ∃ cid cname, Relation.ReflTransGen Step (.riskAssess, create_initial_state cid cname) p

/-! ## Scoring lemmas -/

lemma indicatorFold_score (l : List String) (fs : List String) (n : Nat) :
    (indicatorFold l (fs, n)).2 = n + 10 * dedupNewCount fs l := by
  induction l generalizing fs n with
  | nil => simp [indicatorFold, dedupNewCount]
  | cons i rest ih =>
    by_cases h : i ∈ fs
    · simp [indicatorFold, dedupNewCount, h, ih]
    · simp [indicatorFold, dedupNewCount, h, ih]
      omega

lemma approvalsFold_score (l : List (String × ApprovalValue)) (fs : List String) (n : Nat) :
    (approvalsFold l (fs, n)).2 = n + 15 * (l.filter fun kv => !kv.2.approvedFlag).length := by
  induction l generalizing fs n with
  | nil => simp [approvalsFold]
  | cons kv rest ih =>
    obtain ⟨k, v⟩ := kv
    by_cases h : v.approvedFlag
    · simp [approvalsFold, h, ih, List.filter]
    · simp [approvalsFold, h, ih, List.filter]
      omega

lemma scoreStep_fst (c : Bool) (f : String) (p : Nat) (acc : List String × Nat) :
    (scoreStep c f p acc).1 = acc.1 ++ (if c then [f] else []) := by
  cases c <;> simp [scoreStep]

lemma scoreStep_snd (c : Bool) (f : String) (p : Nat) (acc : List String × Nat) :
    (scoreStep c f p acc).2 = acc.2 + (if c then p else 0) := by
  cases c <;> simp [scoreStep]

lemma scoreStep_zero_iff (c : Bool) (f : String) (p : Nat) (hp : 0 < p)
    (acc : List String × Nat) (h : acc.2 = 0 ↔ acc.1 = []) :
    (scoreStep c f p acc).2 = 0 ↔ (scoreStep c f p acc).1 = [] := by
  cases c <;> simp [scoreStep, h]
  omega

lemma indicatorFold_zero_iff (l : List String) (acc : List String × Nat)
    (h : acc.2 = 0 ↔ acc.1 = []) :
    (indicatorFold l acc).2 = 0 ↔ (indicatorFold l acc).1 = [] := by
  induction l generalizing acc with
  | nil => simpa [indicatorFold] using h
  | cons i rest ih =>
    obtain ⟨fs, n⟩ := acc
    by_cases hc : i ∈ fs
    · simpa [indicatorFold, hc] using ih (fs, n) h
    · have hnew : (fs ++ [i], n + 10).2 = 0 ↔ (fs ++ [i], n + 10).1 = [] := by
        simp
      simpa [indicatorFold, hc] using ih (fs ++ [i], n + 10) hnew

lemma webFlagsFold_zero_iff (l : List String) (acc : List String × Nat)
    (h : acc.2 = 0 ↔ acc.1 = []) :
    (webFlagsFold l acc).2 = 0 ↔ (webFlagsFold l acc).1 = [] := by
  induction l generalizing acc with
  | nil => simpa [webFlagsFold] using h
  | cons i rest ih =>
    obtain ⟨fs, n⟩ := acc
    have hnew : (fs ++ [s!"Web reference risk: {i}"], n + 10).2 = 0 ↔
        (fs ++ [s!"Web reference risk: {i}"], n + 10).1 = [] := by
      simp
    simpa [webFlagsFold] using ih (fs ++ [s!"Web reference risk: {i}"], n + 10) hnew

lemma approvalsFold_zero_iff (l : List (String × ApprovalValue)) (acc : List String × Nat)
    (h : acc.2 = 0 ↔ acc.1 = []) :
    (approvalsFold l acc).2 = 0 ↔ (approvalsFold l acc).1 = [] := by
  induction l generalizing acc with
  | nil => simpa [approvalsFold] using h
  | cons kv rest ih =>
    obtain ⟨fs, n⟩ := acc
    obtain ⟨k, v⟩ := kv
    by_cases hv : v.approvedFlag
    · simpa [approvalsFold, hv] using ih (fs, n) h
    · have hnew : (fs ++ [s!"Human reviewer rejected {k} check"], n + 15).2 = 0 ↔
          (fs ++ [s!"Human reviewer rejected {k} check"], n + 15).1 = [] := by
        simp
      simpa [approvalsFold, hv] using ih (fs ++ [s!"Human reviewer rejected {k} check"], n + 15) hnew

lemma riskLevelOf_eq (n : Nat) :
    riskLevelOf n =
      (if n = 0 then "Low" else if n ≤ 29 then "Medium-Low"
       else if n ≤ 49 then "Medium" else if n ≤ 69 then "Medium-High" else "High") := by
  unfold riskLevelOf
  split_ifs <;> first | rfl | omega

lemma indicatorFold_score_acc (l : List String) (acc : List String × Nat) :
    (indicatorFold l acc).2 = acc.2 + 10 * dedupNewCount acc.1 l := by
  obtain ⟨fs, n⟩ := acc
  exact indicatorFold_score l fs n

lemma approvalsFold_score_acc (l : List (String × ApprovalValue)) (acc : List String × Nat) :
    (approvalsFold l acc).2 = acc.2 + 15 * (l.filter fun kv => !kv.2.approvedFlag).length := by
  obtain ⟨fs, n⟩ := acc
  exact approvalsFold_score l fs n

/-! ## Concrete scenario states -/

/-- Scenario D: identity verified, web check failed, payslip not required. -/
def scenarioD : AgentState :=
  { create_initial_state "c1" "Alice" with
    verification_summary := some
      { client_info := { client_id := "c1", client_name := "Alice", verification_date := "t" }
        verification_plan :=
          { id_verification_required := false
            payslip_verification_required := false
            web_references_required := true
            financial_reports_required := false }
        verification_status :=
          { id_verified := .ofBool true
            payslip_verified := .notRequired
            web_references_verified := .ofBool false
            financial_reports_verified := .notRequired }
        identity_details := .unavailable
        employment_details := .notRequired
        web_presence := .unavailable
        financial_reports := .notRequired
        risk_indicators := [] } }

/-- Scenario E: every check verified, nothing rejected, no risk indicators. -/
def scenarioE : AgentState :=
  { create_initial_state "c1" "Alice" with
    verification_summary := some
      { client_info := { client_id := "c1", client_name := "Alice", verification_date := "t" }
        verification_plan :=
          { id_verification_required := false
            payslip_verification_required := false
            web_references_required := true
            financial_reports_required := false }
        verification_status :=
          { id_verified := .ofBool true
            payslip_verified := .notRequired
            web_references_verified := .ofBool true
            financial_reports_verified := .notRequired }
        identity_details := .unavailable
        employment_details := .notRequired
        web_presence := .unavailable
        financial_reports := .notRequired
        risk_indicators := [] } }

/-- Every check failed or missing with both extra checks required by the plan,
one summary risk indicator and one human rejection: total 115, above 100. -/
def scenarioOverflow : AgentState :=
  { create_initial_state "c1" "Alice" with
    verification_plan := some
      { emptyPlanDict with
        payslip_verification_required := true
        financial_reports_required := true }
    human_approvals :=
      [("payslip_verification_review",
        .detail { approved := false, review_date := "t", issues_at_review := [],
                  reviewer_comments := none })]
    verification_summary := some
      { client_info := { client_id := "c1", client_name := "Alice", verification_date := "t" }
        verification_plan :=
          { id_verification_required := false
            payslip_verification_required := true
            web_references_required := true
            financial_reports_required := true }
        verification_status :=
          { id_verified := .ofBool false
            payslip_verified := .ofBool false
            web_references_verified := .ofBool false
            financial_reports_verified := .ofBool false }
        identity_details := .unavailable
        employment_details := .unavailable
        web_presence := .unavailable
        financial_reports := .unavailable
        risk_indicators := ["Politically exposed person"] } }

/-- C3: the level bands of the risk assessor, with no clamp on the score;
scenario D scores 15 = Medium-Low, scenario E scores 0 = Low, and a fully
failed state scores 115, above 100. -/
theorem c3_risk_level_bands :
    (∀ n : Nat, riskLevelOf n = "Low" ↔ n = 0)
    ∧ (∀ n : Nat, riskLevelOf n = "Medium-Low" ↔ 1 ≤ n ∧ n ≤ 29)
    ∧ (∀ n : Nat, riskLevelOf n = "Medium" ↔ 30 ≤ n ∧ n ≤ 49)
    ∧ (∀ n : Nat, riskLevelOf n = "Medium-High" ↔ 50 ≤ n ∧ n ≤ 69)
    ∧ (∀ n : Nat, riskLevelOf n = "High" ↔ 70 ≤ n)
    ∧ ((perform_risk_assessment "t" scenarioD).risk_assessment.map
        fun r => (r.risk_score, r.risk_level)) = some (15, "Medium-Low")
    ∧ ((perform_risk_assessment "t" scenarioE).risk_assessment.map
        fun r => (r.risk_score, r.risk_level)) = some (0, "Low")
    ∧ ((perform_risk_assessment "t" scenarioOverflow).risk_assessment.map
        fun r => (r.risk_score, r.risk_level)) = some (115, "High") := by
  refine ⟨?_, ?_, ?_, ?_, ?_, by decide, by decide, by decide⟩ <;>
    (intro n; rw [riskLevelOf_eq]; split_ifs <;> simp_all <;> omega)

/-- C10: the risk assessor's score is zero exactly when its factor list is
empty — every point added is paired with one appended factor and no factor is
appended without points. -/
theorem c10_score_zero_iff_no_factors (now : String) (s : AgentState) :
    ∃ r, (perform_risk_assessment now s).risk_assessment = some r ∧
      (r.risk_score = 0 ↔ r.risk_factors = []) := by
  refine ⟨_, rfl, ?_⟩
  apply approvalsFold_zero_iff
  cases hvs : s.verification_summary with
  | some summary =>
    simp only [perform_risk_assessment, hvs]
    apply indicatorFold_zero_iff
    apply scoreStep_zero_iff _ _ _ (by norm_num)
    apply scoreStep_zero_iff _ _ _ (by norm_num)
    apply scoreStep_zero_iff _ _ _ (by norm_num)
    apply scoreStep_zero_iff _ _ _ (by norm_num)
    simp
  | none =>
    simp only [perform_risk_assessment, hvs]
    apply scoreStep_zero_iff _ _ _ (by norm_num)
    have hacc2 := scoreStep_zero_iff (payslipFallbackPenalty s)
      "Required payslip verification failed or missing" 25 (by norm_num) _
      (scoreStep_zero_iff (idFallbackPenalty s)
        "ID verification failed or missing" 30 (by norm_num) ([], 0) (by simp))
    cases hw : s.web_references with
    | none => simp
    | some web =>
      cases hv : web.verified with
      | false => simp [hv]
      | true =>
        simp only [hv, Bool.not_true, Bool.false_eq_true, if_false]
        cases hf : web.risk_flags with
        | some flags => exact webFlagsFold_zero_iff flags _ hacc2
        | none => exact hacc2

/-! ## C2: the risk score as a closed arithmetic sum -/

lemma summaryPayslipCond (s : AgentState) :
    ((planFlag s.verification_plan fun x => x.payslip_verification_required) &&
      !(if (planFlag s.verification_plan fun x => x.payslip_verification_required)
        then StatusFlag.ofBool (verifiedFlagAt s "payslip_verification")
        else StatusFlag.notRequired).truthy) = claimedPayslipPenalty s := by
  by_cases hp : planFlag s.verification_plan fun x => x.payslip_verification_required <;>
    simp [hp, claimedPayslipPenalty, StatusFlag.truthy]

lemma summaryFinancialCond (s : AgentState) :
    ((planFlag s.verification_plan fun x => x.financial_reports_required) &&
      !(if (planFlag s.verification_plan fun x => x.financial_reports_required)
        then StatusFlag.ofBool (verifiedFlagAt s "financial_reports")
        else StatusFlag.notRequired).truthy) = claimedFinancialPenalty s := by
  by_cases hp : planFlag s.verification_plan fun x => x.financial_reports_required <;>
    simp [hp, claimedFinancialPenalty, StatusFlag.truthy]

lemma scoreStep4_fst (c1 c2 c3 c4 : Bool) (f1 f2 f3 f4 : String) (p1 p2 p3 p4 : Nat) :
    (scoreStep c4 f4 p4 (scoreStep c3 f3 p3 (scoreStep c2 f2 p2 (scoreStep c1 f1 p1 ([], 0))))).1
      = (if c1 then [f1] else []) ++ (if c2 then [f2] else []) ++
        (if c3 then [f3] else []) ++ (if c4 then [f4] else []) := by
  simp [scoreStep_fst]

lemma scoreStep4_snd (c1 c2 c3 c4 : Bool) (f1 f2 f3 f4 : String) (p1 p2 p3 p4 : Nat) :
    (scoreStep c4 f4 p4 (scoreStep c3 f3 p3 (scoreStep c2 f2 p2 (scoreStep c1 f1 p1 ([], 0))))).2
      = (if c1 then p1 else 0) + (if c2 then p2 else 0) +
        (if c3 then p3 else 0) + (if c4 then p4 else 0) := by
  cases c1 <;> cases c2 <;> cases c3 <;> cases c4 <;> simp [scoreStep_snd]

/-- C2 (amended): on every state whose summary is the summarizer's own
projection — the only states the workflow hands to the risk assessor — the
risk score equals the claimed commutative sum of fixed point values. -/
theorem c2_amended_score_is_claimed_sum (s : AgentState) (nowS nowA : String) :
    ((perform_risk_assessment nowA (summarization_agent nowS s)).risk_assessment.map
      fun r => r.risk_score) = some (riskScoreClaimed s) := by
  simp only [summarization_agent, perform_risk_assessment, buildSummary]
  rw [approvalsFold_score_acc, indicatorFold_score_acc]
  simp only [Option.map_some', Option.some.injEq]
  rw [summaryPayslipCond, summaryFinancialCond, scoreStep4_fst, scoreStep4_snd]
  unfold riskScoreClaimed claimedBaseFactors rejectionCount claimedIdPenalty claimedWebPenalty
  simp only [StatusFlag.truthy]

/-- A state outside the summarized domain: no summary, web verified with one
risk flag.  The fallback branch of the assessor scores it 10 while the
claim's formula yields 20, refuting the claim quantified over every state. -/
def c2CexState : AgentState :=
  { create_initial_state "c1" "Alice" with
    id_verification := some { verified := true }
    web_references := some { verified := true, risk_flags := some ["Adverse media"] } }

/-- C2 (counterexample): on `c2CexState` the assessor's score is 10 but the
claimed sum is 20, so the claim is false for states without a summary. -/
theorem c2_counterexample_no_summary_state :
    ((perform_risk_assessment "t" c2CexState).risk_assessment.map fun r => r.risk_score)
        = some 10
      ∧ riskScoreClaimed c2CexState = 20
      ∧ ((perform_risk_assessment "t" c2CexState).risk_assessment.map fun r => r.risk_score)
        ≠ some (riskScoreClaimed c2CexState) := by
  refine ⟨by decide, by decide, by decide⟩

/-! ## C6: the summarizer -/

/-- C6 (counterexample): the summary embeds `datetime.now()` as
`verification_date`, so two invocations of the summarizer on the unchanged
state but at different clock readings produce different output. -/
theorem c6_counterexample_two_clock_readings :
    (summarization_agent "2024-01-01T00:00:00" (create_initial_state "c1" "Alice")).verification_summary
      ≠ (summarization_agent "2024-01-01T00:00:01" (create_initial_state "c1" "Alice")).verification_summary := by
  decide

/-- C6 (amended): at a fixed clock reading the summarizer is deterministic
and idempotent — running it again on its own output reproduces the same
summary — and it changes exactly the `verification_summary` and
`risk_assessment_action` keys of the state, leaving every other field
untouched. -/
theorem c6_amended_summarizer_pure_projection (now : String) (s : AgentState) :
    (summarization_agent now (summarization_agent now s)).verification_summary
        = (summarization_agent now s).verification_summary
    ∧ (summarization_agent now s).verification_summary = some (buildSummary now s)
    ∧ (summarization_agent now s).risk_assessment_action = some "perform_assessment"
    ∧ (summarization_agent now s).client_id = s.client_id
    ∧ (summarization_agent now s).client_name = s.client_name
    ∧ (summarization_agent now s).id_verification = s.id_verification
    ∧ (summarization_agent now s).payslip_verification = s.payslip_verification
    ∧ (summarization_agent now s).web_references = s.web_references
    ∧ (summarization_agent now s).financial_reports = s.financial_reports
    ∧ (summarization_agent now s).employment_corroboration = s.employment_corroboration
    ∧ (summarization_agent now s).funds_corroboration = s.funds_corroboration
    ∧ (summarization_agent now s).verification_plan = s.verification_plan
    ∧ (summarization_agent now s).current_verification_step = s.current_verification_step
    ∧ (summarization_agent now s).completed_verifications = s.completed_verifications
    ∧ (summarization_agent now s).risk_assessment = s.risk_assessment
    ∧ (summarization_agent now s).final_report = s.final_report
    ∧ (summarization_agent now s).human_approvals = s.human_approvals
    ∧ (summarization_agent now s).next_agent = s.next_agent
    ∧ (summarization_agent now s).next_verification = s.next_verification
    ∧ (summarization_agent now s).id_verification_critical_issues = s.id_verification_critical_issues
    ∧ (summarization_agent now s).audit_log = s.audit_log
    ∧ (summarization_agent now s).pending_reviews = s.pending_reviews
    ∧ (summarization_agent now s).review_responses = s.review_responses := by
  repeat' constructor

/-! ## C8: the initial plan -/

def c8State : AgentState :=
  { create_initial_state "c1" "Alice" with id_verification := some { verified := true } }

/-- C8 (counterexample): the single web-references requirement of the initial
plan carries the reason string from the source, which is not
"initial web presence check". -/
theorem c8_counterexample_reason_string :
    ((create_verification_plan "t" c8State).verification_plan.map
      fun p => (SMap.find? "web_references" p.verification_requirements).map fun r => r.reason)
      = some (some "Web presence analysis is required to determine employment status and risks")
    ∧ "Web presence analysis is required to determine employment status and risks"
        ≠ "initial web presence check" := by
  refine ⟨by decide, by decide⟩

/-- C8 (amended): whenever the initial plan is created (identity verified or
human-approved), its requirements map holds exactly one entry,
`web_references`, with `required = true`, `priority = 2` and the source's
reason string; identity is not stored as a requirement entry. -/
theorem c8_amended_initial_plan_shape (now : String) (s : AgentState)
    (idr : IDVerificationResult)
    (hid : s.id_verification = some idr)
    (hres : idr.verified = true ∨ idApproved s = true) :
    ∃ p, (create_verification_plan now s).verification_plan = some p
      ∧ p.verification_requirements =
        [("web_references",
          { verification_type := "web_references"
            required := true
            reason := "Web presence analysis is required to determine employment status and risks"
            status := "pending"
            priority := 2 })]
      ∧ SMap.find? "id_verification" p.verification_requirements = none := by
  unfold create_verification_plan
  rw [hid]
  have hcond : (idr.verified || idApproved s) = true := by
    rcases hres with h | h <;> simp [h]
  simp only [hcond, if_true]
  exact ⟨_, rfl, rfl, rfl⟩

/-- C8 witness: the amended statement at a concrete verified-identity state. -/
theorem c8_amended_initial_plan_shape_witness :
    ∃ p, (create_verification_plan "t" c8State).verification_plan = some p
      ∧ p.verification_requirements =
        [("web_references",
          { verification_type := "web_references"
            required := true
            reason := "Web presence analysis is required to determine employment status and risks"
            status := "pending"
            priority := 2 })]
      ∧ SMap.find? "id_verification" p.verification_requirements = none :=
  c8_amended_initial_plan_shape "t" c8State { verified := true } rfl (Or.inl rfl)

/-! ## C9: router purity -/

/-- C9 (counterexample): `route_after_summarization` writes
`risk_assessment_action` into the state it was given, so the input state is
not left unchanged. -/
theorem c9_counterexample_router_mutation :
    (route_after_summarization (create_initial_state "c1" "Alice")).2
      ≠ create_initial_state "c1" "Alice" := by
  decide

/-- C9 (amended): both routers return a target that is a function of the
current state only, but they are not mutation-free: the post-summarization
router always sets `risk_assessment_action = "perform_assessment"`, and the
post-check review router either leaves the state unchanged or sets only the
`id_verification_critical_issues` flag (when identity issues are present). -/
theorem c9_amended_router_frame (s : AgentState) :
    ((route_after_summarization s).1 = "risk_assessment_node"
      ∧ (route_after_summarization s).2 = { s with risk_assessment_action := some "perform_assessment" })
    ∧ ((verification_needs_human_review s).2 = s
        ∨ ((verification_needs_human_review s).2 = { s with id_verification_critical_issues := true }
            ∧ (verification_needs_human_review s).1 = "human_advisory_node")) := by
  refine ⟨⟨rfl, rfl⟩, ?_⟩
  unfold verification_needs_human_review
  dsimp only
  split_ifs <;> simp

/-! ## C4: plan revision after the web check -/

lemma SMap.find_set_self {β : Type} (k : String) (v : β) (l : SMap β) :
    SMap.find? k (SMap.set k v l) = some v := by
  induction l with
  | nil => simp [SMap.set, SMap.find?]
  | cons kv rest ih =>
    obtain ⟨k1, v1⟩ := kv
    by_cases h : k1 = k <;> simp [SMap.set, SMap.find?, h, ih]

lemma SMap.find_set_ne {β : Type} (k k2 : String) (v : β) (l : SMap β) (h : k2 ≠ k) :
    SMap.find? k (SMap.set k2 v l) = SMap.find? k l := by
  induction l with
  | nil => simp [SMap.set, SMap.find?, h]
  | cons kv rest ih =>
    obtain ⟨k1, v1⟩ := kv
    by_cases h1 : k1 = k2
    · subst h1
      simp [SMap.set, SMap.find?, h]
    · by_cases h2 : k1 = k
      · subst h2
        simp [SMap.set, SMap.find?, h1]
      · simp [SMap.set, SMap.find?, h1, h2, ih]

/-- C4: after the web check, the payslip requirement is added exactly when a
mention shows employment (LinkedIn-style source or non-empty employer), with
`required = true` and priority 3; a financial-reports requirement is added
exactly when financial keywords appear or no employment is found — required
with priority 3 as the fallback evidence source when employment is absent,
supplementary (`required = false`) with priority 4 when financial signals
appear alongside employment evidence. -/
theorem c4_plan_revision_after_web_check (s : AgentState) (web : WebReferencesResult)
    (plan : VerificationPlan)
    (hw : s.web_references = some web)
    (hplan : s.verification_plan = some plan)
    (hne1 : SMap.find? "payslip_verification" plan.verification_requirements = none)
    (hne2 : SMap.find? "financial_reports" plan.verification_requirements = none) :
    ∃ p2, (analyze_web_references s).verification_plan = some p2
      ∧ (web.mentions.any mentionEmployment = true →
          ∃ r, SMap.find? "payslip_verification" p2.verification_requirements = some r
            ∧ r.required = true ∧ r.priority = 3)
      ∧ (web.mentions.any mentionEmployment = false →
          SMap.find? "payslip_verification" p2.verification_requirements = none)
      ∧ ((web.mentions.any mentionFinancial || !web.mentions.any mentionEmployment) = false →
          SMap.find? "financial_reports" p2.verification_requirements = none)
      ∧ (web.mentions.any mentionEmployment = false →
          ∃ r, SMap.find? "financial_reports" p2.verification_requirements = some r
            ∧ r.required = true ∧ r.priority = 3)
      ∧ (web.mentions.any mentionEmployment = true → web.mentions.any mentionFinancial = true →
          ∃ r, SMap.find? "financial_reports" p2.verification_requirements = some r
            ∧ r.required = false ∧ r.priority = 4) := by
  have hplanF : (analyze_web_references s).verification_plan =
      some { (analyzeRequirementsUpdate s web).2 with
             verification_requirements := (analyzeRequirementsUpdate s web).1 } := by
    unfold analyze_web_references
    rw [hw]
    dsimp only
    cases s.id_verification <;> dsimp only <;> split_ifs <;> rfl
  refine ⟨_, hplanF, ?_, ?_, ?_, ?_, ?_⟩
  · intro hE
    by_cases hF : web.mentions.any mentionFinancial <;>
      simp [analyzeRequirementsUpdate, hplan, hE, hF,
        SMap.find_set_self, SMap.find_set_ne]
  · intro hE
    by_cases hF : web.mentions.any mentionFinancial <;>
      simp [analyzeRequirementsUpdate, hplan, hE, hF, hne1,
        SMap.find_set_self, SMap.find_set_ne]
  · intro h
    have hE : web.mentions.any mentionEmployment = true := by
      rcases Bool.or_eq_false_iff.mp h with ⟨h1, h2⟩
      simpa using h2
    have hF : web.mentions.any mentionFinancial = false :=
      (Bool.or_eq_false_iff.mp h).1
    simp [analyzeRequirementsUpdate, hplan, hE, hF, hne2,
      SMap.find_set_self, SMap.find_set_ne]
  · intro hE
    by_cases hF : web.mentions.any mentionFinancial <;>
      simp [analyzeRequirementsUpdate, hplan, hE, hF,
        SMap.find_set_self, SMap.find_set_ne]
  · intro hE hF
    simp [analyzeRequirementsUpdate, hplan, hE, hF,
      SMap.find_set_self, SMap.find_set_ne]

/-- Scenario B web result: one mention carrying employer "Acme Corp". -/
def scenarioBWeb : WebReferencesResult :=
  { verified := true
    mentions := [{ source := some "Company Site", analysis := some { company := some "Acme Corp" } }] }

def scenarioBPlan : VerificationPlan :=
  { emptyPlanDict with
    web_references_required := true
    verification_requirements :=
      [("web_references",
        { verification_type := "web_references"
          required := true
          reason := "Web presence analysis is required to determine employment status and risks"
          status := "pending"
          priority := 2 })] }

def scenarioBState : AgentState :=
  { create_initial_state "c1" "Alice" with
    id_verification := some { verified := true }
    verification_plan := some scenarioBPlan
    web_references := some scenarioBWeb }

/-- C4 witness: the revision statement at scenario B's concrete state. -/
theorem c4_plan_revision_witness :
    ∃ p2, (analyze_web_references scenarioBState).verification_plan = some p2
      ∧ (scenarioBWeb.mentions.any mentionEmployment = true →
          ∃ r, SMap.find? "payslip_verification" p2.verification_requirements = some r
            ∧ r.required = true ∧ r.priority = 3)
      ∧ (scenarioBWeb.mentions.any mentionEmployment = false →
          SMap.find? "payslip_verification" p2.verification_requirements = none)
      ∧ ((scenarioBWeb.mentions.any mentionFinancial ||
            !scenarioBWeb.mentions.any mentionEmployment) = false →
          SMap.find? "financial_reports" p2.verification_requirements = none)
      ∧ (scenarioBWeb.mentions.any mentionEmployment = false →
          ∃ r, SMap.find? "financial_reports" p2.verification_requirements = some r
            ∧ r.required = true ∧ r.priority = 3)
      ∧ (scenarioBWeb.mentions.any mentionEmployment = true →
          scenarioBWeb.mentions.any mentionFinancial = true →
          ∃ r, SMap.find? "financial_reports" p2.verification_requirements = some r
            ∧ r.required = false ∧ r.priority = 4) :=
  c4_plan_revision_after_web_check scenarioBState scenarioBWeb scenarioBPlan
    rfl rfl (by decide) (by decide)

/-! ## C7: next-step selection -/

lemma recomputeReq_fields (s : AgentState) (kv : String × VerificationRequirement) :
    (recomputeReq s kv).2.required = kv.2.required
    ∧ (recomputeReq s kv).2.verification_type = kv.2.verification_type
    ∧ (recomputeReq s kv).2.priority = kv.2.priority := by
  unfold recomputeReq
  split_ifs <;> exact ⟨rfl, rfl, rfl⟩

lemma recomputeReq_qual (s : AgentState) (kv : String × VerificationRequirement) :
    ((recomputeReq s kv).2.required && (recomputeReq s kv).2.status == "pending"
      && decide ((recomputeReq s kv).2.priority < 999)) = true
      ↔ (kv.2.required = true ∧ verifiedFlagAt s kv.2.verification_type = false
          ∧ kv.2.priority < 999) := by
  unfold recomputeReq
  by_cases hreq : kv.2.required
  · by_cases hver : verifiedFlagAt s kv.2.verification_type <;> simp [hreq, hver]
  · simp [hreq]

lemma recomputeReq_eq_of_required (s : AgentState) (k : String) (r : VerificationRequirement)
    (hreq : r.required = true) :
    recomputeReq s (k, r) =
      (k, { r with
            status := if verifiedFlagAt s r.verification_type then "completed" else "pending" }) := by
  unfold recomputeReq
  exact if_pos hreq

lemma recomputeReq_eq_of_not_required (s : AgentState) (k : String) (r : VerificationRequirement)
    (hreq : r.required = false) :
    recomputeReq s (k, r) = (k, r) := by
  unfold recomputeReq
  exact if_neg (by simp [hreq])

/-- Behaviour of the priority-selection loop over the recomputed
requirements: either nothing below the running priority bound qualifies and
the accumulator survives, or the loop returns the verification type of a
qualifying entry of minimal priority. -/
lemma mprGo_map_spec (s : AgentState) (l : List (String × VerificationRequirement))
    (hp : Nat) (acc : Option String) :
    (mprGo (l.map (recomputeReq s)) hp acc = acc
      ∧ ∀ kv ∈ l, kv.2.required = true → verifiedFlagAt s kv.2.verification_type = false →
          hp ≤ kv.2.priority)
    ∨ (∃ kv ∈ l, kv.2.required = true ∧ verifiedFlagAt s kv.2.verification_type = false
        ∧ kv.2.priority < hp
        ∧ mprGo (l.map (recomputeReq s)) hp acc = some kv.2.verification_type
        ∧ ∀ ku ∈ l, ku.2.required = true → verifiedFlagAt s ku.2.verification_type = false →
            kv.2.priority ≤ ku.2.priority) := by
  induction l generalizing hp acc with
  | nil => exact Or.inl ⟨rfl, by simp⟩
  | cons kv rest ih =>
    obtain ⟨k, r⟩ := kv
    have hcons : ∀ hp2 acc2, mprGo (((k, r) :: rest).map (recomputeReq s)) hp2 acc2 =
        if r.required = true ∧ verifiedFlagAt s r.verification_type = false
            ∧ r.priority < hp2
        then mprGo (rest.map (recomputeReq s)) r.priority (some r.verification_type)
        else mprGo (rest.map (recomputeReq s)) hp2 acc2 := by
      intro hp2 acc2
      cases hreq : r.required with
      | false =>
        rw [List.map_cons, recomputeReq_eq_of_not_required s k r hreq]
        simp [mprGo, hreq]
      | true =>
        cases hver : verifiedFlagAt s r.verification_type with
        | true =>
          rw [List.map_cons, recomputeReq_eq_of_required s k r hreq]
          simp [mprGo, hver]
        | false =>
          rw [List.map_cons, recomputeReq_eq_of_required s k r hreq]
          by_cases hlt : r.priority < hp2 <;> simp [mprGo, hreq, hver, hlt]
    by_cases hqual : r.required = true ∧ verifiedFlagAt s r.verification_type = false
        ∧ r.priority < hp
    · have hstep : mprGo (((k, r) :: rest).map (recomputeReq s)) hp acc
          = mprGo (rest.map (recomputeReq s)) r.priority (some r.verification_type) := by
        rw [hcons, if_pos hqual]
      rcases ih r.priority (some r.verification_type) with ⟨heq, hbound⟩ | hex
      · refine Or.inr ⟨(k, r), by simp, hqual.1, hqual.2.1, hqual.2.2, by rw [hstep]; exact heq, ?_⟩
        intro ku hku h1 h2
        rcases List.mem_cons.mp hku with h | h
        · subst h
          exact Nat.le_refl _
        · exact hbound ku h h1 h2
      · obtain ⟨ku, hmem, hk1, hk2, hk3, heq, hmin⟩ := hex
        refine Or.inr ⟨ku, List.mem_cons_of_mem _ hmem, hk1, hk2,
          Nat.lt_trans hk3 hqual.2.2, by rw [hstep]; exact heq, ?_⟩
        intro ku2 hku2 h1 h2
        rcases List.mem_cons.mp hku2 with h | h
        · subst h
          exact Nat.le_of_lt hk3
        · exact hmin ku2 h h1 h2
    · have hstep : mprGo (((k, r) :: rest).map (recomputeReq s)) hp acc
          = mprGo (rest.map (recomputeReq s)) hp acc := by
        rw [hcons, if_neg hqual]
      rcases ih hp acc with ⟨heq, hbound⟩ | hex
      · refine Or.inl ⟨by rw [hstep]; exact heq, ?_⟩
        intro ku hku h1 h2
        rcases List.mem_cons.mp hku with h | h
        · subst h
          by_contra hlt
          exact hqual ⟨h1, h2, lt_of_not_le hlt⟩
        · exact hbound ku h h1 h2
      · obtain ⟨ku, hmem, hk1, hk2, hk3, heq, hmin⟩ := hex
        refine Or.inr ⟨ku, List.mem_cons_of_mem _ hmem, hk1, hk2, hk3,
          by rw [hstep]; exact heq, ?_⟩
        intro ku2 hku2 h1 h2
        rcases List.mem_cons.mp hku2 with h | h
        · subst h
          by_contra hlt
          exact hqual ⟨h1, h2, Nat.lt_trans (lt_of_not_le hlt) hk3⟩
        · exact hmin ku2 h h1 h2

/-- C7 (amended): with identity resolved and a plan whose priorities are
below the loop's 999 sentinel, the completion check selects the next step
among the entries marked `required = true` whose verification data is absent
or unverified in the state: it returns `"summarization"` when no such entry
remains (including the empty map), and otherwise the verification type of
such an entry of minimal priority. -/
theorem c7_amended_next_step_selection (s : AgentState) (plan : VerificationPlan)
    (idr : IDVerificationResult)
    (hplan : s.verification_plan = some plan)
    (hid : s.id_verification = some idr)
    (hres : idr.verified = true ∨ idApproved s = true)
    (hbound : ∀ kv ∈ plan.verification_requirements, kv.2.priority < 999) :
    ((∀ kv ∈ plan.verification_requirements, kv.2.required = true →
        verifiedFlagAt s kv.2.verification_type = true) →
      (check_verification_completion s).next_verification = some "summarization")
    ∧ (∀ kv ∈ plan.verification_requirements, kv.2.required = true →
        verifiedFlagAt s kv.2.verification_type = false →
        ∃ kw ∈ plan.verification_requirements, kw.2.required = true
          ∧ verifiedFlagAt s kw.2.verification_type = false
          ∧ (check_verification_completion s).next_verification = some kw.2.verification_type
          ∧ ∀ ku ∈ plan.verification_requirements, ku.2.required = true →
              verifiedFlagAt s ku.2.verification_type = false →
              kw.2.priority ≤ ku.2.priority) := by
  have hngate : (!idr.verified && !(idApproved s)) = false := by
    rcases hres with h | h <;> simp [h]
  have hcvc : (check_verification_completion s).next_verification = some
      (if plan.verification_requirements.all
          (fun kv => !kv.2.required || verifiedFlagAt s kv.2.verification_type)
       then "summarization"
       else
         match minPendingRequired (plan.verification_requirements.map (recomputeReq s)) with
         | some vt => vt
         | none => "summarization") := by
    unfold check_verification_completion
    rw [hid]
    simp only [hngate, Bool.false_eq_true, if_false, hplan, Option.getD_some]
  constructor
  · intro hall
    have hallb : plan.verification_requirements.all
        (fun kv => !kv.2.required || verifiedFlagAt s kv.2.verification_type) = true := by
      rw [List.all_eq_true]
      intro kv hkv
      by_cases hreq : kv.2.required = true
      · simp [hreq, hall kv hkv hreq]
      · have hf : kv.2.required = false := Bool.eq_false_iff.mpr hreq
        simp [hf]
    rw [hcvc, hallb]
    simp
  · intro kv hkv hreq hver
    have hallb : plan.verification_requirements.all
        (fun kv => !kv.2.required || verifiedFlagAt s kv.2.verification_type) = false := by
      simp only [List.all_eq_false]
      exact ⟨kv, hkv, by simp [hreq, hver]⟩
    rcases mprGo_map_spec s plan.verification_requirements 999 none with
      ⟨heq, hb⟩ | ⟨kw, hmem, h1, h2, h3, heq, hmin⟩
    · have := hbound kv hkv
      have := hb kv hkv hreq hver
      omega
    · refine ⟨kw, hmem, h1, h2, ?_, hmin⟩
      rw [hcvc, hallb]
      simp [minPendingRequired, heq]

/-- A plan whose only entry is optional (`required = false`) yet pending. -/
def c7CexState : AgentState :=
  { create_initial_state "c1" "Alice" with
    id_verification := some { verified := true }
    verification_plan := some
      { emptyPlanDict with
        verification_requirements :=
          [("financial_reports",
            { verification_type := "financial_reports"
              required := false
              reason := "supplementary"
              status := "pending"
              priority := 4 })] } }

/-- C7 (counterexample): an entry with `status = "pending"` but
`required = false` is ignored by the completion check — the code returns
`"summarization"` although a pending entry (of lowest priority) exists, so
the claim as stated is false. -/
theorem c7_counterexample_optional_pending_entry :
    (check_verification_completion c7CexState).next_verification = some "summarization"
    ∧ ((check_verification_completion c7CexState).verification_plan.map fun p =>
        (SMap.find? "financial_reports" p.verification_requirements).map
          fun r => (r.status, r.required))
      = some (some ("pending", false))
    ∧ some "summarization" ≠ some "financial_reports" := by
  refine ⟨by decide, by decide, by decide⟩

def c7WitnessState : AgentState :=
  { create_initial_state "c1" "Alice" with
    id_verification := some { verified := true }
    verification_plan := some
      { emptyPlanDict with
        verification_requirements :=
          [("web_references",
            { verification_type := "web_references"
              required := true
              reason := "initial check"
              status := "pending"
              priority := 2 }),
           ("payslip_verification",
            { verification_type := "payslip_verification"
              required := true
              reason := "employment found"
              status := "pending"
              priority := 3 })] } }

/-- C7 witness: the amended statement at a concrete state with two required
unverified entries selects the priority-2 entry. -/
theorem c7_amended_next_step_selection_witness :
    ∃ kw ∈ (c7WitnessState.verification_plan.getD emptyPlanDict).verification_requirements,
      kw.2.required = true
      ∧ verifiedFlagAt c7WitnessState kw.2.verification_type = false
      ∧ (check_verification_completion c7WitnessState).next_verification
          = some kw.2.verification_type
      ∧ ∀ ku ∈ (c7WitnessState.verification_plan.getD emptyPlanDict).verification_requirements,
          ku.2.required = true →
          verifiedFlagAt c7WitnessState ku.2.verification_type = false →
          kw.2.priority ≤ ku.2.priority :=
  (c7_amended_next_step_selection c7WitnessState
      (c7WitnessState.verification_plan.getD emptyPlanDict) { verified := true }
      rfl rfl (Or.inl rfl) (by decide)).2
    ("web_references",
      { verification_type := "web_references"
        required := true
        reason := "initial check"
        status := "pending"
        priority := 2 })
    (by decide) rfl (by decide)

/-! ## C1 and C5: the identity-first invariant over reachable states -/

/-- The requirement entries of the plan, empty when no plan exists. -/
def planReqs (s : AgentState) : SMap VerificationRequirement :=
  (s.verification_plan.map (·.verification_requirements)).getD []

/-- State invariant maintained by every node of the workflow graph. -/
def GoodS (s : AgentState) : Prop :=
  ((s.payslip_verification.isSome || s.web_references.isSome
      || s.financial_reports.isSome) = true →
    s.id_verification.isSome = true ∧ idResolvedB s = true)
  ∧ (idApproved s = true → s.id_verification.isSome = true)
  ∧ (s.next_verification = some "id_verification" → s.id_verification = none)
  ∧ (s.risk_assessment.isSome = true → idResolvedB s = true)
  ∧ (s.risk_assessment_action = some "perform_assessment" → idResolvedB s = true)
  ∧ (∀ kv ∈ planReqs s, kv.2.verification_type ≠ "id_verification")
  ∧ (s.next_agent = none ∨ s.next_agent = some "human_advisory_node")

/-- Node-indexed invariant: additionally, non-identity check nodes and the
summarizer only run with identity resolved, and the identity check node only
runs with no identity result on record. -/
def Good : Node × AgentState → Prop
  | (n, s) => GoodS s
      ∧ ((n = .payslipCheck ∨ n = .webCheck ∨ n = .finCheck ∨ n = .summarize) →
          idResolvedB s = true)
      ∧ (n = .idCheck → s.id_verification = none ∧ s.next_verification ≠ some "id_verification")

lemma SMap.mem_set {β : Type} (k : String) (v : β) (l : SMap β) (x : String × β)
    (hx : x ∈ SMap.set k v l) : x = (k, v) ∨ x ∈ l := by
  induction l with
  | nil => simpa [SMap.set] using hx
  | cons kv rest ih =>
    obtain ⟨k1, v1⟩ := kv
    by_cases h : k1 = k
    · rw [SMap.set, if_pos h] at hx
      rcases List.mem_cons.mp hx with h2 | h2
      · exact Or.inl h2
      · exact Or.inr (List.mem_cons_of_mem _ h2)
    · rw [SMap.set, if_neg h] at hx
      rcases List.mem_cons.mp hx with h2 | h2
      · exact Or.inr (by rw [h2]; exact List.mem_cons_self _ _)
      · rcases ih h2 with h3 | h3
        · exact Or.inl h3
        · exact Or.inr (List.mem_cons_of_mem _ h3)

lemma planReqs_getD (s : AgentState) :
    (s.verification_plan.getD emptyPlanDict).verification_requirements = planReqs s := by
  cases h : s.verification_plan <;> simp [planReqs, h, emptyPlanDict]

lemma resolved_id_present (s : AgentState)
    (h2 : idApproved s = true → s.id_verification.isSome = true)
    (hres : idResolvedB s = true) : s.id_verification.isSome = true := by
  have hres2 : (idVerifiedOpt s).getD false = true ∨ idApproved s = true := by
    simpa [idResolvedB] using hres
  rcases hres2 with hv | ha
  · cases hid : s.id_verification with
    | none => rw [idVerifiedOpt, hid] at hv; simp at hv
    | some _ => simp
  · exact h2 ha

lemma approved_of_resolved_none (s : AgentState) (hid : s.id_verification = none)
    (hres : idResolvedB s = true) : idApproved s = true := by
  unfold idResolvedB idVerifiedOpt at hres
  rw [hid] at hres
  simpa using hres

lemma unresolved_parts (s : AgentState) (idr : IDVerificationResult)
    (hid : s.id_verification = some idr) (h : idResolvedB s = false) :
    idr.verified = false ∧ idApproved s = false := by
  unfold idResolvedB idVerifiedOpt at h
  rw [hid] at h
  simpa using Bool.or_eq_false_iff.mp h

/-- Under an unresolved identity, `determine_next_action` can only demand the
identity check or human review. -/
lemma determine_unresolved (s : AgentState) (h : idResolvedB s = false) :
    determine_next_action s = "id_verification"
    ∨ determine_next_action s = "human_advisory_node" := by
  unfold determine_next_action
  cases hid : s.id_verification with
  | none => exact Or.inl rfl
  | some idr =>
    obtain ⟨hv, ha⟩ := unresolved_parts s idr hid h
    simp [hv, ha]

/-- Under an unresolved identity, `route_after_risk_assessment` can only
target the identity check or human review. -/
lemma route_unresolved (s : AgentState) (h : idResolvedB s = false) :
    route_after_risk_assessment s = "human_advisory_node"
    ∨ route_after_risk_assessment s = "id_verification_node" := by
  unfold route_after_risk_assessment
  dsimp only
  by_cases hrr : s.review_responses.isEmpty
  · obtain ⟨hgd, happr⟩ := Bool.or_eq_false_iff.mp (by unfold idResolvedB at h; exact h)
    cases hidv : idVerifiedOpt s with
    | none =>
      by_cases hnv : s.next_verification == some "id_verification" <;>
        simp [hrr, hidv, hnv, happr]
    | some b =>
      have hb : b = false := by rw [hidv] at hgd; simpa using hgd
      subst hb
      simp [hrr, hidv, happr]
  · simp [hrr]

/-- Routing guard: a target that is a non-identity check or summarization is
only emitted with identity resolved, and the identity-check target is only
emitted when no identity result exists and the next-verification pointer does
not name the identity step. -/
lemma route_target_guard (s : AgentState) (h : GoodS s) :
    ((route_after_risk_assessment s = "payslip_verification_node"
      ∨ route_after_risk_assessment s = "web_references_node"
      ∨ route_after_risk_assessment s = "financial_reports_node"
      ∨ route_after_risk_assessment s = "summarization_node") → idResolvedB s = true)
    ∧ (route_after_risk_assessment s = "id_verification_node" →
        s.id_verification = none ∧ s.next_verification ≠ some "id_verification") := by
  obtain ⟨h1, h2, h3, h4, h5, h6, h7⟩ := h
  unfold route_after_risk_assessment
  dsimp only
  by_cases hrr : s.review_responses.isEmpty
  case neg =>
    simp [hrr]
  case pos =>
    simp only [hrr, Bool.not_true, Bool.false_eq_true, if_false]
    by_cases hg1 : ((idVerifiedOpt s).isNone && !(s.next_verification == some "id_verification")) = true
    · rcases Bool.and_eq_true_iff.mp hg1 with ⟨hg1a, hg1b⟩
      simp only [hg1, if_true]
      constructor
      · intro hx
        rcases hx with hx | hx | hx | hx <;> simp at hx
      · intro _
        have hidn : s.id_verification = none := by
          cases hcase : s.id_verification with
          | none => rfl
          | some _ =>
            rw [idVerifiedOpt, hcase] at hg1a
            simp at hg1a
        refine ⟨hidn, ?_⟩
        intro hcontra
        rw [hcontra] at hg1b
        simp at hg1b
    · simp only [hg1, Bool.false_eq_true, if_false]
      by_cases hg2 : ((idVerifiedOpt s == some false) && !(idApproved s)) = true
      · simp [hg2]
      · simp only [hg2, Bool.false_eq_true, if_false]
        by_cases hg3 : ((idVerifiedOpt s == some true) || idApproved s) = true
        · have hres : idResolvedB s = true := by
            unfold idResolvedB
            rcases Bool.or_eq_true_iff.mp hg3 with hv | ha
            · cases hidv : idVerifiedOpt s with
              | none => rw [hidv] at hv; simp at hv
              | some b =>
                rw [hidv] at hv
                have : b = true := by simpa using hv
                subst this
                simp [hidv]
            · simp [ha]
          simp only [hg3, if_true]
          refine ⟨fun _ => hres, ?_⟩
          rcases h7 with hna | hna
          · rw [hna]
            dsimp only
            cases hnv : s.next_verification with
            | none => intro hx; simp at hx
            | some nv =>
              by_cases hnv1 : nv = "id_verification"
              · subst hnv1
                intro _
                have hidn : s.id_verification = none := h3 hnv
                have happ : idApproved s = true := by
                  rcases Bool.or_eq_true_iff.mp hg3 with hv | ha
                  · rw [idVerifiedOpt, hidn] at hv
                    simp at hv
                  · exact ha
                have := h2 happ
                rw [hidn] at this
                simp at this
              · simp only [hnv1, if_false]
                split_ifs <;> simp_all
          · rw [hna]
            dsimp only
            intro hx
            simp at hx
        · simp [hg3]

lemma vnhr_frame (s : AgentState) :
    (verification_needs_human_review s).2 = s
    ∨ (verification_needs_human_review s).2 = { s with id_verification_critical_issues := true } := by
  unfold verification_needs_human_review
  dsimp only
  split_ifs <;> simp

lemma vnhr_target (s : AgentState) :
    (verification_needs_human_review s).1 = "human_advisory_node"
    ∨ (verification_needs_human_review s).1 = "risk_assessment_node" := by
  unfold verification_needs_human_review
  dsimp only
  split_ifs <;> simp

lemma mprGo_some_origin (l : List (String × VerificationRequirement)) (hp : Nat)
    (acc : Option String) (vt : String) (h : mprGo l hp acc = some vt) :
    acc = some vt ∨ ∃ kv ∈ l, kv.2.verification_type = vt := by
  induction l generalizing hp acc with
  | nil => exact Or.inl h
  | cons kv rest ih =>
    obtain ⟨k, r⟩ := kv
    rw [mprGo] at h
    split_ifs at h with hcond
    · rcases ih _ _ h with hacc | ⟨ku, hmem, hvt⟩
      · exact Or.inr ⟨(k, r), List.mem_cons_self _ _, Option.some.inj hacc⟩
      · exact Or.inr ⟨ku, List.mem_cons_of_mem _ hmem, hvt⟩
    · rcases ih _ _ h with hacc | ⟨ku, hmem, hvt⟩
      · exact Or.inl hacc
      · exact Or.inr ⟨ku, List.mem_cons_of_mem _ hmem, hvt⟩

lemma analyzeReqs_vtypes (s : AgentState) (web : WebReferencesResult)
    (h6 : ∀ kv ∈ planReqs s, kv.2.verification_type ≠ "id_verification") :
    ∀ kv ∈ (analyzeRequirementsUpdate s web).1, kv.2.verification_type ≠ "id_verification" := by
  intro kv hkv
  unfold analyzeRequirementsUpdate at hkv
  dsimp only at hkv
  cases hE : web.mentions.any mentionEmployment with
  | true =>
    cases hF : web.mentions.any mentionFinancial with
    | true =>
      simp only [hE, hF, Bool.not_true, Bool.true_or, if_true, planReqs_getD] at hkv
      rcases SMap.mem_set _ _ _ _ hkv with rfl | hkv2
      · dsimp only
        decide
      · rcases SMap.mem_set _ _ _ _ hkv2 with rfl | hkv3
        · dsimp only
          decide
        · exact h6 _ hkv3
    | false =>
      simp only [hE, hF, Bool.not_true, Bool.false_or, if_true, Bool.false_eq_true,
        if_false, planReqs_getD] at hkv
      rcases SMap.mem_set _ _ _ _ hkv with rfl | hkv2
      · dsimp only
        decide
      · exact h6 _ hkv2
  | false =>
    cases hF : web.mentions.any mentionFinancial with
    | true =>
      simp only [hE, hF, Bool.not_false, Bool.true_or, if_true, Bool.false_eq_true,
        if_false, planReqs_getD] at hkv
      rcases SMap.mem_set _ _ _ _ hkv with rfl | hkv2
      · dsimp only
        decide
      · exact h6 _ hkv2
    | false =>
      simp only [hE, hF, Bool.not_false, Bool.or_true, if_true, Bool.false_eq_true,
        if_false, planReqs_getD] at hkv
      rcases SMap.mem_set _ _ _ _ hkv with rfl | hkv2
      · dsimp only
        decide
      · exact h6 _ hkv2

lemma goods_create (now : String) (s : AgentState) (h : GoodS s) :
    GoodS (create_verification_plan now s) := by
  obtain ⟨h1, h2, h3, h4, h5, h6, h7⟩ := h
  unfold create_verification_plan
  split
  · exact ⟨h1, h2, h3, h4, h5, h6, h7⟩
  · split_ifs with hcond
    · refine ⟨h1, h2, ?_, h4, h5, ?_, h7⟩
      · intro hx
        simp at hx
      · intro kv hkv
        simp only [planReqs, Option.map_some', Option.getD_some] at hkv
        rcases List.mem_singleton.mp hkv with rfl
        decide
    · exact ⟨h1, h2, h3, h4, h5, h6, h7⟩

lemma goods_analyze (s : AgentState) (h : GoodS s) : GoodS (analyze_web_references s) := by
  obtain ⟨h1, h2, h3, h4, h5, h6, h7⟩ := h
  unfold analyze_web_references
  split
  · exact ⟨h1, h2, h3, h4, h5, h6, h7⟩
  · rename_i web hw
    dsimp only
    split
    · refine ⟨h1, h2, ?_, h4, h5, ?_, h7⟩
      · rename_i hid
        intro _
        exact hid
      · intro kv hkv
        simp only [planReqs, Option.map_some', Option.getD_some] at hkv
        exact analyzeReqs_vtypes s web h6 kv hkv
    · rename_i idr hid
      split_ifs with hblock hpay hfin
      · refine ⟨h1, h2, h3, h4, h5, ?_, Or.inr rfl⟩
        intro kv hkv
        simp only [planReqs, Option.map_some', Option.getD_some] at hkv
        exact analyzeReqs_vtypes s web h6 kv hkv
      · refine ⟨h1, h2, ?_, h4, h5, ?_, h7⟩
        · intro hx
          simp at hx
        · intro kv hkv
          simp only [planReqs, Option.map_some', Option.getD_some] at hkv
          exact analyzeReqs_vtypes s web h6 kv hkv
      · refine ⟨h1, h2, ?_, h4, h5, ?_, h7⟩
        · intro hx
          simp at hx
        · intro kv hkv
          simp only [planReqs, Option.map_some', Option.getD_some] at hkv
          exact analyzeReqs_vtypes s web h6 kv hkv
      · refine ⟨h1, h2, ?_, h4, h5, ?_, h7⟩
        · intro hx
          simp at hx
        · intro kv hkv
          simp only [planReqs, Option.map_some', Option.getD_some] at hkv
          exact analyzeReqs_vtypes s web h6 kv hkv

lemma goods_check (s : AgentState) (h : GoodS s) : GoodS (check_verification_completion s) := by
  obtain ⟨h1, h2, h3, h4, h5, h6, h7⟩ := h
  unfold check_verification_completion
  split
  · exact ⟨h1, h2, h3, h4, h5, h6, h7⟩
  · split_ifs with hgate
    · exact ⟨h1, h2, h3, h4, h5, h6, h7⟩
    · dsimp only
      have h6map : ∀ kv ∈ ((s.verification_plan.getD emptyPlanDict).verification_requirements.map
          (recomputeReq s)), kv.2.verification_type ≠ "id_verification" := by
        intro kv hkv
        rcases List.mem_map.mp hkv with ⟨ku, hku, hmap⟩
        rw [planReqs_getD] at hku
        have hvt := (recomputeReq_fields s ku).2.1
        rw [hmap] at hvt
        rw [hvt]
        exact h6 ku hku
      refine ⟨h1, h2, ?_, h4, h5, ?_, h7⟩
      · intro hx
        rw [Option.some_inj] at hx
        revert hx
        split_ifs with hall
        · intro hx
          exact absurd hx.symm (by decide)
        · cases hmr : minPendingRequired
              ((s.verification_plan.getD emptyPlanDict).verification_requirements.map
                (recomputeReq s)) with
          | none =>
            intro hx
            exact absurd hx.symm (by decide)
          | some vt =>
            intro hx
            rcases mprGo_some_origin _ _ _ _ hmr with hacc | ⟨ku, hmem, hvt⟩
            · exact absurd hacc (by simp)
            · have hx2 : vt = "id_verification" := hx
              rw [hx2] at hvt
              exact absurd hvt (h6map ku hmem)
      · intro kv hkv
        simp only [planReqs, Option.map_some', Option.getD_some] at hkv
        exact h6map kv hkv

lemma goods_perform (now : String) (s : AgentState) (h : GoodS s)
    (hres : idResolvedB s = true) : GoodS (perform_risk_assessment now s) := by
  obtain ⟨h1, h2, h3, h4, h5, h6, h7⟩ := h
  exact ⟨h1, h2, h3, fun _ => hres, h5, h6, h7⟩

lemma idResolvedB_of_approved (s : AgentState) (h : idApproved s = true) :
    idResolvedB s = true := by
  unfold idResolvedB
  rw [h]
  exact Bool.or_true _

/-- The blocking-review guard decomposed: an ID result exists and no human
approval for it is on record. -/
lemma blocking_parts (s : AgentState) (hb : needsBlockingReview s = true) :
    s.id_verification.isSome = true ∧ idApproved s = false := by
  unfold needsBlockingReview at hb
  obtain ⟨hb1, hb2⟩ := Bool.and_eq_true_iff.mp hb
  constructor
  · cases hix : s.id_verification with
    | none => rw [hix] at hb1; simp at hb1
    | some r => rfl
  · unfold idApproved
    simpa using hb2

/-- `risk_assessment_agent` preserves the state invariant: every dispatch
branch is audit-only, one of the already-covered planner functions, or a
risk assessment run that only happens with identity resolved. -/
lemma ra_goods (now : String) (s : AgentState) (h : GoodS s) :
    GoodS (risk_assessment_agent now s) := by
  unfold risk_assessment_agent
  dsimp only
  split_ifs with ha hd1 hd2 hd3 hd4 hd5 hd6 hd7 hd8 hp
  · exact h
  · exact h
  · exact goods_create now s h
  · exact goods_analyze s h
  · exact goods_check s h
  · exact h
  · exact h
  · refine goods_perform now s h ?_
    cases hres : idResolvedB s with
    | true => rfl
    | false =>
      rcases determine_unresolved s hres with hdd | hdd
      · exact absurd hdd hd1
      · exact absurd hdd hd2
  · exact h
  · refine goods_perform now s h ?_
    have hra : s.risk_assessment_action = some "perform_assessment" := by
      cases hx : s.risk_assessment_action with
      | none => rw [hx] at hp; exact absurd hp (by decide)
      | some a =>
        rw [hx] at hp
        simp only [Option.getD_some] at hp
        rw [hp]
    exact h.2.2.2.2.1 hra
  · exact h

/-- Packaging of the node-indexed invariant. -/
lemma good_of_goods (n : Node) (s : AgentState) (hg : GoodS s)
    (hc : (n = .payslipCheck ∨ n = .webCheck ∨ n = .finCheck ∨ n = .summarize) →
      idResolvedB s = true)
    (hi : n = .idCheck → s.id_verification = none
      ∧ s.next_verification ≠ some "id_verification") :
    Good (n, s) := ⟨hg, hc, hi⟩

/-- Decoding a routing target that satisfies the routing guard lands on a
node whose entry conditions hold. -/
lemma good_of_target (s : AgentState) (t : String) (hg : GoodS s)
    (hguard1 : (t = "payslip_verification_node" ∨ t = "web_references_node"
      ∨ t = "financial_reports_node" ∨ t = "summarization_node") → idResolvedB s = true)
    (hguard2 : t = "id_verification_node" → s.id_verification = none
      ∧ s.next_verification ≠ some "id_verification") :
    Good (decodeTarget t, s) := by
  unfold decodeTarget
  split_ifs with c1 c2 c3 c4 c5 c6 c7 c8
  · exact ⟨hg, fun hx => by rcases hx with h | h | h | h <;> exact absurd h (by decide),
      fun hx => absurd hx (by decide)⟩
  · exact ⟨hg, fun hx => by rcases hx with h | h | h | h <;> exact absurd h (by decide),
      fun _ => hguard2 c2⟩
  · exact ⟨hg, fun _ => hguard1 (Or.inl c3), fun hx => absurd hx (by decide)⟩
  · exact ⟨hg, fun _ => hguard1 (Or.inr (Or.inl c4)), fun hx => absurd hx (by decide)⟩
  · exact ⟨hg, fun _ => hguard1 (Or.inr (Or.inr (Or.inl c5))), fun hx => absurd hx (by decide)⟩
  · exact ⟨hg, fun _ => hguard1 (Or.inr (Or.inr (Or.inr c6))), fun hx => absurd hx (by decide)⟩
  · exact ⟨hg, fun hx => by rcases hx with h | h | h | h <;> exact absurd h (by decide),
      fun hx => absurd hx (by decide)⟩
  · exact ⟨hg, fun hx => by rcases hx with h | h | h | h <;> exact absurd h (by decide),
      fun hx => absurd hx (by decide)⟩
  · exact ⟨hg, fun hx => by rcases hx with h | h | h | h <;> exact absurd h (by decide),
      fun hx => absurd hx (by decide)⟩

lemma goods_vnhr (s : AgentState) (h : GoodS s) :
    GoodS (verification_needs_human_review s).2 := by
  rcases vnhr_frame s with he | he <;> rw [he] <;> exact h

lemma frame_payslip (now : String) (s acc : AgentState) :
    ∃ pr au, asyncPayslipReview now s acc
      = { acc with pending_reviews := pr, audit_log := au } := by
  unfold asyncPayslipReview
  rcases s.payslip_verification with _ | p
  · exact ⟨_, _, rfl⟩
  · dsimp only
    split_ifs <;> exact ⟨_, _, rfl⟩

lemma frame_employment (now : String) (s acc : AgentState) :
    ∃ pr au, asyncEmploymentReview now s acc
      = { acc with pending_reviews := pr, audit_log := au } := by
  unfold asyncEmploymentReview
  rcases s.employment_corroboration with _ | c
  · exact ⟨_, _, rfl⟩
  · dsimp only
    split_ifs <;> exact ⟨_, _, rfl⟩

lemma frame_funds (now : String) (s acc : AgentState) :
    ∃ pr au, asyncFundsReview now s acc
      = { acc with pending_reviews := pr, audit_log := au } := by
  unfold asyncFundsReview
  rcases s.funds_corroboration with _ | c
  · exact ⟨_, _, rfl⟩
  · dsimp only
    split_ifs <;> exact ⟨_, _, rfl⟩

lemma frame_readiness (now : String) (s acc : AgentState) :
    ∃ pr au, asyncReadinessReview now s acc
      = { acc with pending_reviews := pr, audit_log := au } := by
  unfold asyncReadinessReview
  dsimp only
  split_ifs <;> exact ⟨_, _, rfl⟩

/-- The non-blocking review sections only grow `pending_reviews` and
`audit_log`. -/
lemma async_frame (now : String) (s : AgentState) :
    ∃ pr au, asyncReviews now s = { s with pending_reviews := pr, audit_log := au } := by
  obtain ⟨p1, a1, h1⟩ := frame_payslip now s s
  obtain ⟨p2, a2, h2⟩ := frame_employment now s (asyncPayslipReview now s s)
  obtain ⟨p3, a3, h3⟩ :=
    frame_funds now s (asyncEmploymentReview now s (asyncPayslipReview now s s))
  obtain ⟨p4, a4, h4⟩ := frame_readiness now s
    (asyncFundsReview now s (asyncEmploymentReview now s (asyncPayslipReview now s s)))
  refine ⟨p4, a4, ?_⟩
  unfold asyncReviews
  rw [h4, h3, h2, h1]

lemma goods_async (now : String) (s : AgentState) (h : GoodS s) :
    GoodS (asyncReviews now s) := by
  obtain ⟨pr, au, he⟩ := async_frame now s
  rw [he]
  exact h

/-- Entry conditions hold at the workflow entry point. -/
lemma good_init (cid cname : String) : Good (.riskAssess, create_initial_state cid cname) := by
  refine ⟨⟨fun hx => ?_, fun hx => ?_, fun hx => ?_, fun hx => ?_, fun hx => ?_,
    fun kv hkv => ?_, Or.inl rfl⟩, fun hx => ?_, fun hx => ?_⟩
  · exact absurd hx (by simp [create_initial_state])
  · exact absurd hx (by simp [create_initial_state, idApproved, approvalFlagOf, SMap.find?])
  · exact absurd hx (by simp [create_initial_state])
  · exact absurd hx (by simp [create_initial_state])
  · exact absurd hx (by simp [create_initial_state])
  · exact absurd hkv (by simp [planReqs, create_initial_state])
  · rcases hx with h | h | h | h <;> exact absurd h (by decide)
  · exact absurd hx (by decide)

/-- The state invariant ignoring `human_approvals` additions made by the
blocking identity review. -/
lemma goods_approve (now : String) (issues : List String) (cmt : Option String)
    (s : AgentState) (hg : GoodS s) (hids : s.id_verification.isSome = true) :
    GoodS { s with
      audit_log := s.audit_log ++ [haLog "Interrupting workflow for ID verification review"]
      human_approvals := SMap.set "id_verification"
        (.detail { approved := true, review_date := now, issues_at_review := issues,
                   reviewer_comments := cmt }) s.human_approvals } := by
  obtain ⟨g1, g2, g3, g4, g5, g6, g7⟩ := hg
  have happ : idApproved { s with
      audit_log := s.audit_log ++ [haLog "Interrupting workflow for ID verification review"]
      human_approvals := SMap.set "id_verification"
        (.detail { approved := true, review_date := now, issues_at_review := issues,
                   reviewer_comments := cmt }) s.human_approvals } = true := by
    unfold idApproved approvalFlagOf
    dsimp only
    rw [SMap.find_set_self]
    rfl
  have hres2 := idResolvedB_of_approved _ happ
  refine ⟨fun _ => ⟨hids, hres2⟩, fun _ => hids, ?_, fun _ => hres2, fun _ => hres2, g6, g7⟩
  intro hx
  rw [g3 hx] at hids
  exact absurd hids (by decide)

/-- One super-step preserves the invariant. -/
lemma step_good {p q : Node × AgentState} (hp : Good p) (hstep : Step p q) : Good q := by
  cases hstep with
  | riskAssess now s n2 s2 hs hn =>
    subst hs
    subst hn
    have hg2 : GoodS (risk_assessment_agent now s) := ra_goods now s hp.1
    split_ifs with hrs
    · exact good_of_goods _ _ hg2
        (fun hx => by rcases hx with h | h | h | h <;> exact absurd h (by decide))
        (fun hx => absurd hx (by decide))
    · obtain ⟨hguard1, hguard2⟩ := route_target_guard _ hg2
      exact good_of_target _ _ hg2 hguard1 hguard2
  | idCheck s r s2 hs =>
    subst hs
    obtain ⟨⟨h1, h2, h3, h4, h5, h6, h7⟩, hchk, hidc⟩ := hp
    obtain ⟨hid, hnv⟩ := hidc rfl
    refine ⟨⟨?_, ?_, ?_, ?_, ?_, h6, h7⟩, ?_, ?_⟩
    · intro hx
      exact absurd (h1 hx).1 (by rw [hid]; decide)
    · intro _
      rfl
    · intro hx
      exact absurd hx hnv
    · intro hx
      exact idResolvedB_of_approved { s with id_verification := some r }
        (approved_of_resolved_none s hid (h4 hx))
    · intro hx
      exact idResolvedB_of_approved { s with id_verification := some r }
        (approved_of_resolved_none s hid (h5 hx))
    · intro hx
      rcases hx with h | h | h | h <;> exact absurd h (by decide)
    · intro hx
      exact absurd hx (by decide)
  | payslipCheck s r revs aud n2 s2 hs hn =>
    subst hs
    subst hn
    obtain ⟨⟨h1, h2, h3, h4, h5, h6, h7⟩, hchk, _⟩ := hp
    have hres : idResolvedB s = true := hchk (Or.inl rfl)
    have hg2 : GoodS { s with payslip_verification := some r, pending_reviews := s.pending_reviews ++ revs, audit_log := s.audit_log ++ aud } :=
      ⟨fun _ => ⟨resolved_id_present s h2 hres, hres⟩, h2, h3,
        fun _ => hres, fun _ => hres, h6, h7⟩
    rcases vnhr_target { s with payslip_verification := some r, pending_reviews := s.pending_reviews ++ revs, audit_log := s.audit_log ++ aud } with ht | ht <;>
      rw [ht] <;>
      exact good_of_goods _ _ (goods_vnhr _ hg2)
        (fun hx => by rcases hx with h | h | h | h <;> exact absurd h (by decide))
        (fun hx => absurd hx (by decide))
  | webCheck s r n2 s2 hs hn =>
    subst hs
    subst hn
    obtain ⟨⟨h1, h2, h3, h4, h5, h6, h7⟩, hchk, _⟩ := hp
    have hres : idResolvedB s = true := hchk (Or.inr (Or.inl rfl))
    have hg2 : GoodS { s with web_references := some r } :=
      ⟨fun _ => ⟨resolved_id_present s h2 hres, hres⟩, h2, h3,
        fun _ => hres, fun _ => hres, h6, h7⟩
    rcases vnhr_target { s with web_references := some r } with ht | ht <;>
      rw [ht] <;>
      exact good_of_goods _ _ (goods_vnhr _ hg2)
        (fun hx => by rcases hx with h | h | h | h <;> exact absurd h (by decide))
        (fun hx => absurd hx (by decide))
  | finCheck s r n2 s2 hs hn =>
    subst hs
    subst hn
    obtain ⟨⟨h1, h2, h3, h4, h5, h6, h7⟩, hchk, _⟩ := hp
    have hres : idResolvedB s = true := hchk (Or.inr (Or.inr (Or.inl rfl)))
    have hg2 : GoodS { s with financial_reports := some r } :=
      ⟨fun _ => ⟨resolved_id_present s h2 hres, hres⟩, h2, h3,
        fun _ => hres, fun _ => hres, h6, h7⟩
    rcases vnhr_target { s with financial_reports := some r } with ht | ht <;>
      rw [ht] <;>
      exact good_of_goods _ _ (goods_vnhr _ hg2)
        (fun hx => by rcases hx with h | h | h | h <;> exact absurd h (by decide))
        (fun hx => absurd hx (by decide))
  | advisory decision now s n2 s2 hmatch =>
    have hg : GoodS s := hp.1
    cases hout : human_advisory_agent decision now s with
    | command g u =>
      rw [hout] at hmatch
      dsimp only at hmatch
      injection hmatch with hn2 hs2
      subst hn2
      subst hs2
      unfold human_advisory_agent at hout
      dsimp only at hout
      split_ifs at hout with hb hd
      · injection hout with hg1 hu1
        subst hg1
        subst hu1
        refine good_of_goods _ _ ?_
          (fun hx => by rcases hx with h | h | h | h <;> exact absurd h (by decide))
          (fun hx => absurd hx (by decide))
        exact goods_approve now _ _ s hg (blocking_parts s hb).1
    | commandNoUpdate g =>
      rw [hout] at hmatch
      dsimp only at hmatch
      injection hmatch with hn2 hs2
      subst hn2
      subst hs2
      unfold human_advisory_agent at hout
      dsimp only at hout
      split_ifs at hout with hb hd
      · cases hout
        rw [if_pos rfl]
        exact ⟨hg, fun hx => by rcases hx with h | h | h | h <;> exact absurd h (by decide),
          fun hx => absurd hx (by decide)⟩
    | finalState u =>
      rw [hout] at hmatch
      dsimp only at hmatch
      injection hmatch with hn2 hs2
      subst hn2
      subst hs2
      unfold human_advisory_agent at hout
      dsimp only at hout
      split_ifs at hout with hb hd
      · cases hout
        exact ⟨goods_async now s hg,
          fun hx => by rcases hx with h | h | h | h <;> exact absurd h (by decide),
          fun hx => absurd hx (by decide)⟩
  | summarize now s n2 s2 hs hn =>
    subst hs
    subst hn
    obtain ⟨⟨g1, g2, g3, g4, g5, g6, g7⟩, hchk, _⟩ := hp
    have hres : idResolvedB s = true := hchk (Or.inr (Or.inr (Or.inr rfl)))
    show Good (decodeTarget "risk_assessment_node",
      { summarization_agent now s with risk_assessment_action := some "perform_assessment" })
    refine good_of_goods _ _ ?_
      (fun hx => by rcases hx with h | h | h | h <;> exact absurd h (by decide))
      (fun hx => absurd hx (by decide))
    exact ⟨g1, g2, g3, g4, fun _ => hres, g6, g7⟩
  | reportGen s rep s2 hs =>
    subst hs
    exact ⟨hp.1, fun hx => by rcases hx with h | h | h | h <;> exact absurd h (by decide),
      fun hx => absurd hx (by decide)⟩

/-- Every reachable configuration satisfies the invariant. -/
lemma reachable_good (p : Node × AgentState) (h : Reachable p) : Good p := by
  obtain ⟨cid, cname, hsteps⟩ := h
  induction hsteps with
  | refl => exact good_init cid cname
  | tail hst hstep ih => exact step_good ih hstep

/-! ## A concrete run of the workflow: plan creation after an approved
identity review, then the web check. -/

def wInit : AgentState := create_initial_state "c-1" "Client One"

def wS1 : AgentState := risk_assessment_agent "t1" wInit

def wIdResult : IDVerificationResult := { verified := false }

def wS2 : AgentState := { wS1 with id_verification := some wIdResult }

def wS3 : AgentState :=
  { wS2 with
    audit_log := wS2.audit_log ++ [haLog "Interrupting workflow for ID verification review"],
    human_approvals := SMap.set "id_verification"
      (.detail { approved := true, review_date := "t2", issues_at_review := [],
                 reviewer_comments := some "Human review approved ID verification" })
      wS2.human_approvals }

def wS4 : AgentState := risk_assessment_agent "t3" wS3

def wWebResult : WebReferencesResult := { verified := true }

def wS5 : AgentState :=
  (verification_needs_human_review { wS4 with web_references := some wWebResult }).2

lemma wStep1 : Step (.riskAssess, wInit) (.idCheck, wS1) :=
  Step.riskAssess "t1" wInit _ _ rfl (by decide)

lemma wStep2 : Step (.idCheck, wS1) (.advisory, wS2) :=
  Step.idCheck wS1 wIdResult wS2 rfl

lemma wStep3 : Step (.advisory, wS2) (.riskAssess, wS3) :=
  Step.advisory true "t2" wS2 _ _ (by decide)

lemma wStep4 : Step (.riskAssess, wS3) (.webCheck, wS4) :=
  Step.riskAssess "t3" wS3 _ _ rfl (by decide)

lemma wStep5 : Step (.webCheck, wS4) (.riskAssess, wS5) :=
  Step.webCheck wS4 wWebResult _ _ rfl (by decide)

lemma wTrace2 : Relation.ReflTransGen Step (.riskAssess, wInit) (.advisory, wS2) :=
  (Relation.ReflTransGen.refl.tail wStep1).tail wStep2

lemma wTrace5 : Relation.ReflTransGen Step (.riskAssess, wInit) (.riskAssess, wS5) :=
  ((wTrace2.tail wStep3).tail wStep4).tail wStep5

/-- C1: identity-first invariant.  (1) For every reachable configuration of
the workflow graph, if a payslip, web-references or financial-reports result
is present in the state, then the identity result is present and either its
verified flag is true or the recorded human approval for id_verification is
approved.  (2) The routing functions never emit a transition to a
non-identity check while identity is unresolved: under an unresolved
identity, `determine_next_action` only demands the identity check or human
review, and `route_after_risk_assessment` only targets the identity-check
node or the human-advisory node. -/
theorem c1_identity_first_invariant :
    (∀ n s, Reachable (n, s) →
      (s.payslip_verification.isSome || s.web_references.isSome
        || s.financial_reports.isSome) = true →
      s.id_verification.isSome = true
        ∧ ((idVerifiedOpt s).getD false = true ∨ idApproved s = true))
    ∧ (∀ s, idResolvedB s = false →
      (determine_next_action s = "id_verification"
        ∨ determine_next_action s = "human_advisory_node")
      ∧ (route_after_risk_assessment s = "id_verification_node"
        ∨ route_after_risk_assessment s = "human_advisory_node")) := by
  constructor
  · intro n s hreach hpres
    have hG := (reachable_good (n, s) hreach).1.1 hpres
    refine ⟨hG.1, ?_⟩
    have hres := hG.2
    unfold idResolvedB at hres
    exact Bool.or_eq_true_iff.mp hres
  · intro s hres
    exact ⟨determine_unresolved s hres, (route_unresolved s hres).symm⟩

/-- Witness for C1 at the end of a concrete five-step run (plan creation
after a human-approved identity, then the web check): the web result is
present and identity is present and human-approved; and at the concrete
unresolved state the router targets human review. -/
theorem c1_identity_first_invariant_witness :
    ((wS5.payslip_verification.isSome || wS5.web_references.isSome
      || wS5.financial_reports.isSome) = true
      ∧ wS5.id_verification.isSome = true
      ∧ ((idVerifiedOpt wS5).getD false = true ∨ idApproved wS5 = true))
    ∧ (idResolvedB wS2 = false
      ∧ (route_after_risk_assessment wS2 = "id_verification_node"
        ∨ route_after_risk_assessment wS2 = "human_advisory_node")) := by
  constructor
  · refine ⟨by decide, ?_⟩
    exact c1_identity_first_invariant.1 .riskAssess wS5
      ⟨"c-1", "Client One", wTrace5⟩ (by decide)
  · exact ⟨by decide, (c1_identity_first_invariant.2 wS2 (by decide)).2⟩

/-- C5: identity rejection is terminal.  At any reachable advisory
configuration whose state triggers the blocking identity review, a rejection
decision yields `Command(goto="end")` with no state update, the graph moves
to the halt node with the state unchanged (so the audit log gains no
summarization or risk-assessment entries after the rejection), the halt node
has no outgoing transition, and the state carries no risk_assessment
entry. -/
theorem c5_identity_rejection_terminal (s : AgentState) (now : String)
    (h : Reachable (.advisory, s)) (hb : needsBlockingReview s = true) :
    human_advisory_agent false now s = .commandNoUpdate "end"
    ∧ Step (.advisory, s) (.aborted, s)
    ∧ (∀ q, ¬ Step (.aborted, s) q)
    ∧ s.risk_assessment = none := by
  have hcmd : human_advisory_agent false now s = .commandNoUpdate "end" := by
    unfold human_advisory_agent
    rw [hb]
    rfl
  refine ⟨hcmd, ?_, ?_, ?_⟩
  · refine Step.advisory false now s .aborted s ?_
    rw [hcmd]
    rfl
  · intro q hstep
    cases hstep
  · have h4 := (reachable_good _ h).1.2.2.2.1
    have hresF : idResolvedB s = false := by
      have hb2 := hb
      unfold needsBlockingReview at hb2
      obtain ⟨hb3, hb4⟩ := Bool.and_eq_true_iff.mp hb2
      unfold idResolvedB idVerifiedOpt
      cases hix : s.id_verification with
      | none => rw [hix] at hb3; simp at hb3
      | some r =>
        rw [hix] at hb3
        have hver : r.verified = false := by simpa using hb3
        have happ : idApproved s = false := by
          unfold idApproved
          simpa using hb4
        simp [hver, happ]
    cases hra : s.risk_assessment with
    | none => rfl
    | some x =>
      have hT := h4 (by rw [hra]; rfl)
      rw [hT] at hresF
      exact Bool.noConfusion hresF

/-- Witness for C5 at the concrete two-step run reaching the advisory node
with an unverified identity result. -/
theorem c5_identity_rejection_terminal_witness :
    needsBlockingReview wS2 = true
    ∧ human_advisory_agent false "t9" wS2 = .commandNoUpdate "end"
    ∧ Step (.advisory, wS2) (.aborted, wS2)
    ∧ (∀ q, ¬ Step (.aborted, wS2) q)
    ∧ wS2.risk_assessment = none := by
  have h := c5_identity_rejection_terminal wS2 "t9"
    ⟨"c-1", "Client One", wTrace2⟩ (by decide)
  exact ⟨by decide, h.1, h.2.1, h.2.2.1, h.2.2.2⟩

end SOW
